import Mathlib

/-!
Verification of the zram compressed-RAM block-device driver
(drivers/block/zram/zram_drv.c) against its natural-language
specification.

The per-slot metadata word, the slot operations, the same-fill write and
read paths, request validation, the writeback selection / batching loop
and the backing-block bitmap are embedded shallowly as executable Lean
functions translated from the C source.  Machine words are `Nat` with
explicit `% 2 ^ 64` masking where the C code's `unsigned long`
truncation is observable.
-/

/-! ## Constants

`zram_drv.h` is not part of the available sources; the constants it
declares are modelled from the specification (§3.1, §6.2, glossary) and
from how the `.c` file uses them.  All claims proved below depend only
on the relative layout (size field in the low `ZRAM_FLAG_SHIFT` bits,
flag bits above it, idle count in the top bits), not on the exact
numeric choices.
-/

/-- PAGE_SHIFT on the modelled architecture (4 KiB pages). -/
def PAGE_SHIFT : Nat := 12

/-- PAGE_SIZE in bytes. -/
def PAGE_SIZE : Nat := 2 ^ PAGE_SHIFT

/-- Number of machine-word (8-byte) lanes in one page. -/
def PAGE_WORDS : Nat := PAGE_SIZE / 8

/-- SECTOR_SHIFT: 512-byte sectors. -/
def SECTOR_SHIFT : Nat := 9

/-- Modelled from the spec: logical block size equals `PAGE_SIZE`
(spec §6.2); declared in the missing `zram_drv.h`. -/
def ZRAM_LOGICAL_BLOCK_SIZE : Nat := 4096

/-- Modelled from the spec: sectors per logical block; declared in the
missing `zram_drv.h`. -/
def ZRAM_SECTOR_PER_LOGICAL_BLOCK : Nat := 8

/-- Modelled from the spec: the slot's `flags` word keeps the stored
object size in its low `ZRAM_FLAG_SHIFT` bits (spec §4.2, §9); declared
in the missing `zram_drv.h`. -/
def ZRAM_FLAG_SHIFT : Nat := 24

/-- Bit position of the per-slot spinlock bit (first flag above the
size field, as in the `enum zram_pageflags` of the missing header). -/
def ZRAM_LOCK : Nat := 24

/-- Bit position of the same-filled flag. -/
def ZRAM_SAME : Nat := 25

/-- Bit position of the written-back flag. -/
def ZRAM_WB : Nat := 26

/-- Bit position of the writeback-in-flight flag. -/
def ZRAM_UNDER_WB : Nat := 27

/-- Bit position of the incompressible-huge-page flag. -/
def ZRAM_HUGE : Nat := 28

/-- Bit position of the idle flag. -/
def ZRAM_IDLE : Nat := 29

/-- Bit position of the low-compression-ratio flag. -/
def ZRAM_COMPRESS_LOW : Nat := 30

/-- Modelled from the spec: the idle-epoch counter lives in the top
bits of the flags word, starting at this shift (spec §3.1 `idle_count`);
declared in the missing `zram_drv.h`.  The `.c` file requires
`ZRAM_WB_IDLE_SHIFT + ZRAM_WB_IDLE_BITS_LEN <= BITS_PER_LONG`
(zram_drv.c:2982). -/
def ZRAM_WB_IDLE_SHIFT : Nat := 61

/-- Modelled from the spec: width in bits of the idle-epoch counter. -/
def ZRAM_WB_IDLE_BITS_LEN : Nat := 3

/-- Modelled from the spec: saturation bound of the idle-epoch counter
(spec §3.1: "saturating at `IDLE_MAX`"). -/
def ZRAM_WB_IDLE_MAX : Nat := 2 ^ ZRAM_WB_IDLE_BITS_LEN - 1

/-- Modelled from the spec: default `wb_idle_min` (spec §4.5:
"default 1"). -/
def ZRAM_WB_IDLE_DEFAULT : Nat := 1

/-- Modelled from the spec: capacity in pages of the contiguous staging
buffer used by a writeback batch (spec §4.5 step 1); declared in the
missing `zram_drv.h`. -/
def MAX_WRITEBACK_SIZE : Nat := 32

/-- Default low-compression threshold `glow_compress_ratio`
(zram_drv.c:67). -/
def glow_compress_ratio : Nat := 75

/-- `HUGE_WRITEBACK` mode bit (zram_drv.c:773). -/
def HUGE_WRITEBACK : Nat := 1

/-- `IDLE_WRITEBACK` mode bit (zram_drv.c:774). -/
def IDLE_WRITEBACK : Nat := 2

/-- All-ones 64-bit mask; `~x` on `unsigned long` is `MASK64 ^^^ x`. -/
def MASK64 : Nat := 2 ^ 64 - 1

/-- `BIT(n)` of the kernel. -/
def BIT (n : Nat) : Nat := 2 ^ n

/-! ## Bit-level helper lemmas -/

theorem testBit_BIT (f i : Nat) : (BIT f).testBit i = decide (f = i) := by
  simpa [BIT] using Nat.testBit_two_pow (n := f) (m := i)

theorem testBit_or_BIT (w f i : Nat) :
    (w ||| BIT f).testBit i = (w.testBit i || decide (f = i)) := by
  simp [Nat.testBit_or, testBit_BIT]

theorem testBit_not64 (f i : Nat) (hf : f < 64) :
    (MASK64 ^^^ BIT f).testBit i = (decide (i < 64) && !decide (i = f)) := by
  rw [MASK64, Nat.testBit_xor, Nat.testBit_two_pow_sub_one, testBit_BIT]
  by_cases h1 : i < 64
  · by_cases h2 : f = i <;> simp [h1, h2]
    · intro h; exact absurd h.symm h2
  · have h2 : f ≠ i := by omega
    simp [h1, h2]

theorem testBit_clear_BIT (w f i : Nat) (hf : f < 64) :
    (w &&& (MASK64 ^^^ BIT f)).testBit i =
      (w.testBit i && decide (i < 64) && !decide (i = f)) := by
  rw [Nat.testBit_and, testBit_not64 f i hf, Bool.and_assoc]

theorem testBit_clear_BIT_of_lt (w f i : Nat) (hf : f < 64) (hw : w < 2 ^ 64) :
    (w &&& (MASK64 ^^^ BIT f)).testBit i = (w.testBit i && !decide (i = f)) := by
  rw [testBit_clear_BIT w f i hf]
  by_cases h1 : i < 64
  · simp [h1]
  · have : w.testBit i = false :=
      Nat.testBit_lt_two_pow (lt_of_lt_of_le hw (Nat.pow_le_pow_right (by omega) (by omega)))
    simp [this]

theorem testBit_mod_pow (w n i : Nat) :
    (w % 2 ^ n).testBit i = (decide (i < n) && w.testBit i) :=
  Nat.testBit_mod_two_pow w n i

/-! ## Slot model

One `zram_table_entry` (spec §3.1).  As in the source header, the
payload is a single word used as a union: a pool-entry handle (null
encoded as `0`), the same-fill scalar, or a backing block index — the
read path at zram_drv.c:2015 (`value = entry ? element : 0`) only makes
sense with this union.  `flags` packs, from low to high: the object
size (bits `0..ZRAM_FLAG_SHIFT`), the flag bits, and the idle-epoch
counter (bits from `ZRAM_WB_IDLE_SHIFT`).
-/

structure ZramSlot where
  flags : Nat
  payload : Nat
  deriving Repr, DecidableEq

instance : Inhabited ZramSlot := ⟨⟨0, 0⟩⟩

/-- `zram_test_flag` (zram_drv.c:136). -/
def zram_test_flag (s : ZramSlot) (flag : Nat) : Bool :=
  s.flags.testBit flag

/-- `zram_set_flag` (zram_drv.c:142). -/
def zram_set_flag (s : ZramSlot) (flag : Nat) : ZramSlot :=
  { s with flags := s.flags ||| BIT flag }

/-- `zram_clear_flag` (zram_drv.c:148): `flags &= ~BIT(flag)`. -/
def zram_clear_flag (s : ZramSlot) (flag : Nat) : ZramSlot :=
  { s with flags := s.flags &&& (MASK64 ^^^ BIT flag) }

/-- `zram_get_idle_count` (zram_drv.c:109). -/
def zram_get_idle_count (s : ZramSlot) : Nat :=
  s.flags >>> ZRAM_WB_IDLE_SHIFT

/-- `zram_clear_idle_count` (zram_drv.c:114):
`flags &= BIT(ZRAM_WB_IDLE_SHIFT) - 1`. -/
def zram_clear_idle_count (s : ZramSlot) : ZramSlot :=
  { s with flags := s.flags &&& (BIT ZRAM_WB_IDLE_SHIFT - 1) }

/-- `zram_set_idle_count` (zram_drv.c:119). -/
def zram_set_idle_count (s : ZramSlot) (idle_count : Nat) : ZramSlot :=
  let s := zram_clear_idle_count s
  { s with flags := s.flags ||| (idle_count <<< ZRAM_WB_IDLE_SHIFT) }

/-- `zram_inc_idle_count` (zram_drv.c:127). -/
def zram_inc_idle_count (s : ZramSlot) : ZramSlot :=
  if zram_get_idle_count s < ZRAM_WB_IDLE_MAX then
    zram_set_idle_count s (zram_get_idle_count s + 1)
  else s

/-- `zram_get_entry` (zram_drv.c:98); null pointer encoded as `0`. -/
def zram_get_entry (s : ZramSlot) : Nat :=
  s.payload

/-- `zram_set_entry` (zram_drv.c:103). -/
def zram_set_entry (s : ZramSlot) (entry : Nat) : ZramSlot :=
  { s with payload := entry }

/-- `zram_set_element` (zram_drv.c:154); same union word as the entry. -/
def zram_set_element (s : ZramSlot) (element : Nat) : ZramSlot :=
  { s with payload := element }

/-- `zram_get_element` (zram_drv.c:160). -/
def zram_get_element (s : ZramSlot) : Nat :=
  s.payload

/-- `zram_get_obj_size` (zram_drv.c:165). -/
def zram_get_obj_size (s : ZramSlot) : Nat :=
  s.flags &&& (BIT ZRAM_FLAG_SHIFT - 1)

/-- `zram_set_obj_size` (zram_drv.c:170). -/
def zram_set_obj_size (s : ZramSlot) (size : Nat) : ZramSlot :=
  { s with flags := (s.flags >>> ZRAM_FLAG_SHIFT) <<< ZRAM_FLAG_SHIFT ||| size }

/-- `zram_allocated` (zram_drv.c:178). -/
def zram_allocated (s : ZramSlot) : Bool :=
  zram_get_obj_size s != 0 || zram_test_flag s ZRAM_SAME || zram_test_flag s ZRAM_WB

/-- `zram_accessed` (zram_drv.c:1244), flag-word effect: clear `IDLE`
and the idle count (the `ac_time` diagnostic timestamp is not
modelled). -/
def zram_accessed (s : ZramSlot) : ZramSlot :=
  zram_clear_idle_count (zram_clear_flag s ZRAM_IDLE)

/-! ## Pages and same-fill detection -/

/-- A page as its `PAGE_WORDS` machine-word lanes. -/
def Page : Type := Nat → Nat

/-- `zram_fill_page` (zram_drv.c:242): `memset_l` of one value. -/
def zram_fill_page (value : Nat) : Page :=
  fun _ => value

/-- `page_same_filled` (zram_drv.c:249): compares lane 0 against the
last lane, then against lanes `1 .. last_pos - 1`; returns the scalar
on success. -/
def page_same_filled (page : Page) : Option Nat :=
  let last_pos := PAGE_WORDS - 1
  let val := page 0
  if page last_pos ≠ val then none
  else if (List.range' 1 (last_pos - 1)).all (fun pos => page pos == val) then
    some val
  else none

/-! ## Free path -/

/-- `zram_free_page` (zram_drv.c:1929), per-slot effect.  The
`free_block_bdev` and statistics side effects live on the device and
are modelled at the call sites that need them.  Note the early return
when the slot holds neither `WB`, nor `SAME`, nor a pool entry
(zram_drv.c:1968). -/
def free_step_idle (s : ZramSlot) : ZramSlot :=
  if zram_test_flag s ZRAM_IDLE then
    zram_clear_idle_count (zram_clear_flag s ZRAM_IDLE)
  else s

def free_step_clear (f : Nat) (s : ZramSlot) : ZramSlot :=
  if zram_test_flag s f then zram_clear_flag s f else s

def free_step_payload (s : ZramSlot) : ZramSlot :=
  if zram_test_flag s ZRAM_WB then
    zram_set_obj_size (zram_set_entry (zram_clear_flag s ZRAM_WB) 0) 0
  else if zram_test_flag s ZRAM_SAME then
    zram_set_obj_size (zram_set_entry (zram_clear_flag s ZRAM_SAME) 0) 0
  else if zram_get_entry s = 0 then
    s
  else
    zram_set_obj_size (zram_set_entry s 0) 0

def zram_free_page (s : ZramSlot) : ZramSlot :=
  free_step_payload
    (free_step_clear ZRAM_HUGE
      (free_step_clear ZRAM_COMPRESS_LOW (free_step_idle s)))

/-! ## Write path -/

/-- `__zram_bvec_write` (zram_drv.c:2083), slot-table effect.  The
compression backend and pool allocator are external collaborators
(spec §1); their outcome enters through `comp_len` (the compressed
length after the `huge_class_size` clamp to `PAGE_SIZE`,
zram_drv.c:2127) and `entry` (the allocated pool handle).  On the
same-filled branch both are irrelevant, exactly as in the source where
compression is skipped. -/
def zram_bvec_write_slot (page : Page) (comp_len entry : Nat) (s : ZramSlot) :
    ZramSlot :=
  match page_same_filled page with
  | some element =>
    let s := zram_free_page s
    let s := zram_set_flag s ZRAM_SAME
    zram_set_element s element
  | none =>
    let s := zram_free_page s
    let s := if comp_len = PAGE_SIZE then zram_set_flag s ZRAM_HUGE else s
    let s := zram_set_entry s entry
    let s := zram_set_obj_size s comp_len
    if 100 * (PAGE_SIZE - comp_len) / PAGE_SIZE < glow_compress_ratio then
      zram_set_flag s ZRAM_COMPRESS_LOW
    else s

/-! ## Read path -/

/-- `__zram_bvec_read` (zram_drv.c:1986): returns the updated slot and
the destination page, or `none` when the request is routed to the
backing device (`WB` slot).  The pool mapping and the codec are
external collaborators: `pool_page` is the stored uncompressed page
(`size == PAGE_SIZE` memcpy branch) and `decompressed` the codec output
for the compressed branch. -/
def __zram_bvec_read (s : ZramSlot) (access : Bool)
    (pool_page decompressed : Page) : ZramSlot × Option Page :=
  let s := if access then zram_accessed s else s
  if zram_test_flag s ZRAM_WB then
    (s, none)
  else if zram_get_entry s = 0 || zram_test_flag s ZRAM_SAME then
    let value := if zram_get_entry s ≠ 0 then zram_get_element s else 0
    (s, some (zram_fill_page value))
  else if zram_get_obj_size s = PAGE_SIZE then
    (s, some pool_page)
  else
    (s, some decompressed)

/-! ## C9: `zram_set_obj_size` preserves the upper flag bits -/

theorem shiftLeft_or_shiftRight_cancel (w c n : Nat) (hc : c < 2 ^ n) :
    ((w >>> n) <<< n ||| c) >>> n = w >>> n := by
  apply Nat.eq_of_testBit_eq
  intro i
  have h1 : (24 : Nat) ≤ 24 := le_refl 24
  have hcb : c.testBit (n + i) = false :=
    Nat.testBit_lt_two_pow (lt_of_lt_of_le hc (Nat.pow_le_pow_right (by omega) (by omega)))
  simp [Nat.testBit_shiftRight, Nat.testBit_or, Nat.testBit_shiftLeft, hcb]

theorem shiftLeft_or_low_bits (w c n : Nat) (hc : c < 2 ^ n) :
    ((w >>> n) <<< n ||| c) &&& (2 ^ n - 1) = c := by
  apply Nat.eq_of_testBit_eq
  intro i
  rw [Nat.testBit_and, Nat.testBit_two_pow_sub_one]
  by_cases hi : i < n
  · have : ¬ n ≤ i := by omega
    simp [Nat.testBit_or, Nat.testBit_shiftLeft, this, hi]
  · have hcb : c.testBit i = false :=
      Nat.testBit_lt_two_pow (lt_of_lt_of_le hc (Nat.pow_le_pow_right (by omega) (by omega)))
    simp [hi, hcb]

/-- C9: for every flags word and every size below `2 ^ ZRAM_FLAG_SHIFT`,
`zram_set_obj_size` leaves every bit at position `≥ ZRAM_FLAG_SHIFT`
(all flag bits and the idle-count field) exactly as it was, and
`zram_get_obj_size` afterwards returns exactly the stored size. -/
theorem set_obj_size_preserves_flags (s : ZramSlot) (size : Nat)
    (h : size < 2 ^ ZRAM_FLAG_SHIFT) :
    (zram_set_obj_size s size).flags >>> ZRAM_FLAG_SHIFT =
        s.flags >>> ZRAM_FLAG_SHIFT ∧
      zram_get_obj_size (zram_set_obj_size s size) = size := by
  constructor
  · exact shiftLeft_or_shiftRight_cancel s.flags size ZRAM_FLAG_SHIFT h
  · show ((s.flags >>> ZRAM_FLAG_SHIFT) <<< ZRAM_FLAG_SHIFT ||| size) &&&
        (BIT ZRAM_FLAG_SHIFT - 1) = size
    rw [BIT]
    exact shiftLeft_or_low_bits s.flags size ZRAM_FLAG_SHIFT h

/-- C9 witness: a concrete flags word carrying the lock, `UNDER_WB`,
idle count 3 and old size 7, updated to size 100. -/
theorem set_obj_size_preserves_flags_witness :
    (100 < 2 ^ ZRAM_FLAG_SHIFT) ∧
      ((zram_set_obj_size ⟨(3 <<< 61) ||| BIT 27 ||| BIT 24 ||| 7, 0⟩ 100).flags >>>
            ZRAM_FLAG_SHIFT =
          (((3 : Nat) <<< 61) ||| BIT 27 ||| BIT 24 ||| 7) >>> ZRAM_FLAG_SHIFT ∧
        zram_get_obj_size
            (zram_set_obj_size ⟨(3 <<< 61) ||| BIT 27 ||| BIT 24 ||| 7, 0⟩ 100) = 100) :=
  ⟨by decide,
    set_obj_size_preserves_flags ⟨(3 <<< 61) ||| BIT 27 ||| BIT 24 ||| 7, 0⟩ 100 (by decide)⟩

/-! ## Slot observation lemmas -/

theorem test_set_flag (s : ZramSlot) (f i : Nat) :
    zram_test_flag (zram_set_flag s f) i = (zram_test_flag s i || decide (f = i)) := by
  simp [zram_test_flag, zram_set_flag, Nat.testBit_or, testBit_BIT]

theorem test_clear_flag (s : ZramSlot) (f i : Nat) (hf : f < 64) :
    zram_test_flag (zram_clear_flag s f) i =
      (zram_test_flag s i && decide (i < 64) && !decide (i = f)) := by
  simp [zram_test_flag, zram_clear_flag, testBit_clear_BIT _ _ _ hf]

theorem test_clear_idle_count (s : ZramSlot) (i : Nat) :
    zram_test_flag (zram_clear_idle_count s) i =
      (decide (i < 61) && zram_test_flag s i) := by
  have h : BIT ZRAM_WB_IDLE_SHIFT - 1 = 2 ^ 61 - 1 := rfl
  simp only [zram_test_flag, zram_clear_idle_count, h]
  rw [Nat.testBit_and, Nat.testBit_two_pow_sub_one, Bool.and_comm]

theorem test_set_obj_size (s : ZramSlot) (c i : Nat) (hi : ZRAM_FLAG_SHIFT ≤ i) :
    zram_test_flag (zram_set_obj_size s c) i = (zram_test_flag s i || c.testBit i) := by
  have h24 : ZRAM_FLAG_SHIFT = 24 := rfl
  have hx : 24 + (i - 24) = i := by omega
  simp [zram_test_flag, zram_set_obj_size, Nat.testBit_or, Nat.testBit_shiftLeft,
    Nat.testBit_shiftRight, h24, hx, show (24 : Nat) ≤ i from h24 ▸ hi]

theorem count_clear_flag (s : ZramSlot) (f : Nat) (hf : f < 61)
    (hw : s.flags < 2 ^ 64) :
    zram_get_idle_count (zram_clear_flag s f) = zram_get_idle_count s := by
  simp only [zram_get_idle_count, zram_clear_flag, ZRAM_WB_IDLE_SHIFT]
  apply Nat.eq_of_testBit_eq
  intro i
  rw [Nat.testBit_shiftRight, Nat.testBit_shiftRight,
    testBit_clear_BIT _ _ _ (by omega)]
  by_cases h : 61 + i < 64
  · have : ¬ 61 + i = f := by omega
    simp [h, this]
  · have : s.flags.testBit (61 + i) = false :=
      Nat.testBit_lt_two_pow
        (lt_of_lt_of_le hw (Nat.pow_le_pow_right (by omega) (by omega)))
    simp [this]

theorem count_clear_idle_count (s : ZramSlot) :
    zram_get_idle_count (zram_clear_idle_count s) = 0 := by
  simp only [zram_get_idle_count, zram_clear_idle_count]
  have h : s.flags &&& (BIT ZRAM_WB_IDLE_SHIFT - 1) < 2 ^ 61 :=
    lt_of_le_of_lt (Nat.and_le_right) (by decide)
  show (s.flags &&& (BIT ZRAM_WB_IDLE_SHIFT - 1)) >>> ZRAM_WB_IDLE_SHIFT = 0
  rw [Nat.shiftRight_eq_div_pow]
  exact Nat.div_eq_of_lt h

theorem count_set_obj_size (s : ZramSlot) (c : Nat) (hc : c < 2 ^ 24) :
    zram_get_idle_count (zram_set_obj_size s c) = zram_get_idle_count s := by
  simp only [zram_get_idle_count, zram_set_obj_size, ZRAM_WB_IDLE_SHIFT]
  apply Nat.eq_of_testBit_eq
  intro i
  have hcb : c.testBit (61 + i) = false :=
    Nat.testBit_lt_two_pow (lt_of_lt_of_le hc (Nat.pow_le_pow_right (by omega) (by omega)))
  have hx : 24 + (61 + i - 24) = 61 + i := by omega
  have h24 : (24 : Nat) ≤ 61 + i := by omega
  simp [Nat.testBit_shiftRight, Nat.testBit_or, Nat.testBit_shiftLeft, hcb,
    ZRAM_FLAG_SHIFT, hx, h24]

theorem size_clear_flag (s : ZramSlot) (f : Nat) (hf1 : 24 ≤ f) (hf2 : f < 64) :
    zram_get_obj_size (zram_clear_flag s f) = zram_get_obj_size s := by
  simp only [zram_get_obj_size, zram_clear_flag]
  have h : BIT ZRAM_FLAG_SHIFT - 1 = 2 ^ 24 - 1 := rfl
  rw [h]
  apply Nat.eq_of_testBit_eq
  intro i
  by_cases hi : i < 24
  · have h1 : ¬ i = f := by omega
    have h2 : i < 64 := by omega
    simp [Nat.testBit_and, testBit_clear_BIT _ _ _ hf2,
      Nat.testBit_two_pow_sub_one, hi, h1, h2]
  · have hb : Nat.testBit 16777215 i = false := by
      have he : (16777215 : Nat) = 2 ^ 24 - 1 := by norm_num
      rw [he, Nat.testBit_two_pow_sub_one]
      simp [hi]
    simp [Nat.testBit_and, hb]

theorem size_clear_idle_count (s : ZramSlot) :
    zram_get_obj_size (zram_clear_idle_count s) = zram_get_obj_size s := by
  simp only [zram_get_obj_size, zram_clear_idle_count]
  apply Nat.eq_of_testBit_eq
  intro i
  have h61 : BIT ZRAM_WB_IDLE_SHIFT - 1 = 2 ^ 61 - 1 := rfl
  have h24 : BIT ZRAM_FLAG_SHIFT - 1 = 2 ^ 24 - 1 := rfl
  rw [h61, h24, Nat.testBit_and, Nat.testBit_and, Nat.testBit_and,
    Nat.testBit_two_pow_sub_one, Nat.testBit_two_pow_sub_one]
  by_cases hi : i < 24
  · have : i < 61 := by omega
    simp [hi, this]
  · simp [hi]

theorem size_set_obj_size (s : ZramSlot) (c : Nat) (hc : c < 2 ^ ZRAM_FLAG_SHIFT) :
    zram_get_obj_size (zram_set_obj_size s c) = c :=
  (set_obj_size_preserves_flags s c hc).2

theorem flags_lt_clear_flag (s : ZramSlot) (f : Nat) (hf : f < 64) :
    (zram_clear_flag s f).flags < 2 ^ 64 := by
  refine lt_of_le_of_lt Nat.and_le_right (Nat.xor_lt_two_pow (by decide) ?_)
  show 2 ^ f < 2 ^ 64
  exact Nat.pow_lt_pow_right (by omega) hf

theorem flags_lt_clear_idle_count (s : ZramSlot) :
    (zram_clear_idle_count s).flags < 2 ^ 64 :=
  lt_of_le_of_lt Nat.and_le_right (by decide)

/-! ## C7: frame property of `zram_free_page` -/

theorem free_step_idle_payload (s : ZramSlot) :
    (free_step_idle s).payload = s.payload := by
  unfold free_step_idle
  split <;> rfl

theorem free_step_idle_test (s : ZramSlot) (i : Nat) (hi : i < 61)
    (hne : i ≠ ZRAM_IDLE) :
    zram_test_flag (free_step_idle s) i = zram_test_flag s i := by
  unfold free_step_idle
  split
  · rw [test_clear_idle_count, test_clear_flag _ _ _ (by decide)]
    have h1 : i < 64 := by omega
    have h2 : ¬ i = ZRAM_IDLE := hne
    simp [hi, h1, h2]
  · rfl

theorem free_step_idle_idle (s : ZramSlot) :
    zram_test_flag (free_step_idle s) ZRAM_IDLE = false := by
  unfold free_step_idle
  split
  · rw [test_clear_idle_count, test_clear_flag _ _ _ (by decide)]
    simp
  · simp_all

theorem free_step_idle_count (s : ZramSlot) :
    zram_get_idle_count (free_step_idle s) =
      (if zram_test_flag s ZRAM_IDLE then 0 else zram_get_idle_count s) := by
  unfold free_step_idle
  split <;> simp_all [count_clear_idle_count]

theorem free_step_idle_size (s : ZramSlot) :
    zram_get_obj_size (free_step_idle s) = zram_get_obj_size s := by
  unfold free_step_idle
  split
  · rw [size_clear_idle_count, size_clear_flag _ _ (by decide) (by decide)]
  · rfl

theorem free_step_idle_lt (s : ZramSlot) (hw : s.flags < 2 ^ 64) :
    (free_step_idle s).flags < 2 ^ 64 := by
  unfold free_step_idle
  split
  · exact flags_lt_clear_idle_count _
  · exact hw

theorem free_step_clear_payload (f : Nat) (s : ZramSlot) :
    (free_step_clear f s).payload = s.payload := by
  unfold free_step_clear
  split <;> rfl

theorem free_step_clear_test (f : Nat) (s : ZramSlot) (i : Nat) (hf : f < 64)
    (hi : i < 64) (hne : i ≠ f) :
    zram_test_flag (free_step_clear f s) i = zram_test_flag s i := by
  unfold free_step_clear
  split
  · rw [test_clear_flag _ _ _ hf]
    simp [hi, hne]
  · rfl

theorem free_step_clear_self (f : Nat) (s : ZramSlot) (hf : f < 64) :
    zram_test_flag (free_step_clear f s) f = false := by
  unfold free_step_clear
  split
  · rw [test_clear_flag _ _ _ hf]
    simp
  · simp_all

theorem free_step_clear_count (f : Nat) (s : ZramSlot) (hf : f < 61)
    (hw : s.flags < 2 ^ 64) :
    zram_get_idle_count (free_step_clear f s) = zram_get_idle_count s := by
  unfold free_step_clear
  split
  · exact count_clear_flag s f hf hw
  · rfl

theorem free_step_clear_size (f : Nat) (s : ZramSlot) (hf1 : 24 ≤ f)
    (hf2 : f < 64) :
    zram_get_obj_size (free_step_clear f s) = zram_get_obj_size s := by
  unfold free_step_clear
  split
  · exact size_clear_flag s f hf1 hf2
  · rfl

theorem free_step_clear_lt (f : Nat) (s : ZramSlot) (hf : f < 64)
    (hw : s.flags < 2 ^ 64) :
    (free_step_clear f s).flags < 2 ^ 64 := by
  unfold free_step_clear
  split
  · exact flags_lt_clear_flag s f hf
  · exact hw

theorem test_set_obj_size_zero (s : ZramSlot) (i : Nat) (hi : ZRAM_FLAG_SHIFT ≤ i) :
    zram_test_flag (zram_set_obj_size s 0) i = zram_test_flag s i := by
  rw [test_set_obj_size s 0 i hi]
  simp

/-- C7 (amended): `zram_free_page` never touches the `LOCK` or
`UNDER_WB` bits; it always ends with `IDLE`, `COMPRESS_LOW`, `HUGE` and
`WB` clear and a null entry; `SAME` is cleared except that a (per
invariant I1 impossible) slot carrying both `WB` and `SAME` keeps
`SAME`; it zeroes the idle count iff `IDLE` was set; and it zeroes the
stored size iff the slot actually held a payload (`WB`, `SAME`, or a
non-null entry) — on the no-payload early return (zram_drv.c:1968) the
size field is left as it was. -/
theorem zram_free_page_spec (s : ZramSlot) (hw : s.flags < 2 ^ 64) :
    zram_test_flag (zram_free_page s) ZRAM_LOCK = zram_test_flag s ZRAM_LOCK ∧
      zram_test_flag (zram_free_page s) ZRAM_UNDER_WB =
        zram_test_flag s ZRAM_UNDER_WB ∧
      zram_test_flag (zram_free_page s) ZRAM_IDLE = false ∧
      zram_test_flag (zram_free_page s) ZRAM_COMPRESS_LOW = false ∧
      zram_test_flag (zram_free_page s) ZRAM_HUGE = false ∧
      zram_test_flag (zram_free_page s) ZRAM_WB = false ∧
      zram_test_flag (zram_free_page s) ZRAM_SAME =
        (if zram_test_flag s ZRAM_WB then zram_test_flag s ZRAM_SAME
          else false) ∧
      (zram_free_page s).payload = 0 ∧
      zram_get_idle_count (zram_free_page s) =
        (if zram_test_flag s ZRAM_IDLE then 0 else zram_get_idle_count s) ∧
      zram_get_obj_size (zram_free_page s) =
        (if zram_test_flag s ZRAM_WB || zram_test_flag s ZRAM_SAME ||
            decide (s.payload ≠ 0) then 0
          else zram_get_obj_size s) := by
  have e3 : zram_free_page s =
      free_step_payload (free_step_clear ZRAM_HUGE
        (free_step_clear ZRAM_COMPRESS_LOW (free_step_idle s))) := rfl
  set s3 := free_step_clear ZRAM_HUGE
    (free_step_clear ZRAM_COMPRESS_LOW (free_step_idle s)) with hs3
  have hA : s3.payload = s.payload := by
    rw [hs3, free_step_clear_payload, free_step_clear_payload,
      free_step_idle_payload]
  have htest : ∀ i, i < 61 → i ≠ ZRAM_IDLE → i ≠ ZRAM_COMPRESS_LOW →
      i ≠ ZRAM_HUGE → zram_test_flag s3 i = zram_test_flag s i := by
    intro i h1 h2 h3 h4
    rw [hs3, free_step_clear_test _ _ _ (by decide) (by omega) h4,
      free_step_clear_test _ _ _ (by decide) (by omega) h3,
      free_step_idle_test _ _ h1 h2]
  have hB24 : zram_test_flag s3 ZRAM_LOCK = zram_test_flag s ZRAM_LOCK :=
    htest _ (by decide) (by decide) (by decide) (by decide)
  have hB27 : zram_test_flag s3 ZRAM_UNDER_WB = zram_test_flag s ZRAM_UNDER_WB :=
    htest _ (by decide) (by decide) (by decide) (by decide)
  have hB26 : zram_test_flag s3 ZRAM_WB = zram_test_flag s ZRAM_WB :=
    htest _ (by decide) (by decide) (by decide) (by decide)
  have hB25 : zram_test_flag s3 ZRAM_SAME = zram_test_flag s ZRAM_SAME :=
    htest _ (by decide) (by decide) (by decide) (by decide)
  have hB29 : zram_test_flag s3 ZRAM_IDLE = false := by
    rw [hs3, free_step_clear_test _ _ _ (by decide) (by decide) (by decide),
      free_step_clear_test _ _ _ (by decide) (by decide) (by decide),
      free_step_idle_idle]
  have hB30 : zram_test_flag s3 ZRAM_COMPRESS_LOW = false := by
    rw [hs3, free_step_clear_test _ _ _ (by decide) (by decide) (by decide),
      free_step_clear_self _ _ (by decide)]
  have hB28 : zram_test_flag s3 ZRAM_HUGE = false := by
    rw [hs3, free_step_clear_self _ _ (by decide)]
  have hlt1 : (free_step_idle s).flags < 2 ^ 64 := free_step_idle_lt s hw
  have hlt2 : (free_step_clear ZRAM_COMPRESS_LOW (free_step_idle s)).flags <
      2 ^ 64 := free_step_clear_lt _ _ (by decide) hlt1
  have hlt3 : s3.flags < 2 ^ 64 := by
    rw [hs3]; exact free_step_clear_lt _ _ (by decide) hlt2
  have hC : zram_get_idle_count s3 =
      (if zram_test_flag s ZRAM_IDLE then 0 else zram_get_idle_count s) := by
    rw [hs3, free_step_clear_count _ _ (by decide) hlt2,
      free_step_clear_count _ _ (by decide) hlt1, free_step_idle_count]
  have hD : zram_get_obj_size s3 = zram_get_obj_size s := by
    rw [hs3, free_step_clear_size _ _ (by decide) (by decide),
      free_step_clear_size _ _ (by decide) (by decide), free_step_idle_size]
  rw [e3]
  unfold free_step_payload
  by_cases hWB : zram_test_flag s3 ZRAM_WB
  · have hWBs : zram_test_flag s ZRAM_WB = true := hB26 ▸ hWB
    rw [if_pos hWB]
    have hcl : ∀ i, ZRAM_FLAG_SHIFT ≤ i → i < 64 → i ≠ ZRAM_WB →
        zram_test_flag
            (zram_set_obj_size (zram_set_entry (zram_clear_flag s3 ZRAM_WB) 0) 0)
            i = zram_test_flag s3 i := by
      intro i h1 h2 h3
      rw [test_set_obj_size_zero _ _ h1]
      show zram_test_flag (zram_clear_flag s3 ZRAM_WB) i = zram_test_flag s3 i
      rw [test_clear_flag _ _ _ (by decide)]
      simp [h2, h3]
    refine ⟨?_, ?_, ?_, ?_, ?_, ?_, ?_, ?_, ?_, ?_⟩
    · rw [hcl _ (by decide) (by decide) (by decide)]; exact hB24
    · rw [hcl _ (by decide) (by decide) (by decide)]; exact hB27
    · rw [hcl _ (by decide) (by decide) (by decide)]; exact hB29
    · rw [hcl _ (by decide) (by decide) (by decide)]; exact hB30
    · rw [hcl _ (by decide) (by decide) (by decide)]; exact hB28
    · rw [test_set_obj_size_zero _ _ (by decide)]
      show zram_test_flag (zram_clear_flag s3 ZRAM_WB) ZRAM_WB = false
      rw [test_clear_flag _ _ _ (by decide)]
      simp
    · rw [hcl _ (by decide) (by decide) (by decide), hB25]
      simp [hWBs]
    · rfl
    · rw [count_set_obj_size _ _ (by decide)]
      show zram_get_idle_count (zram_clear_flag s3 ZRAM_WB) = _
      rw [count_clear_flag _ _ (by decide) hlt3]
      exact hC
    · simp only [hWBs, Bool.true_or, if_true]
      exact size_set_obj_size _ _ (by decide)
  · have hWBs : zram_test_flag s ZRAM_WB = false := by
      rw [← hB26]; exact Bool.not_eq_true _ ▸ (by simp [hWB])
    by_cases hSAME : zram_test_flag s3 ZRAM_SAME
    · have hSAMEs : zram_test_flag s ZRAM_SAME = true := hB25 ▸ hSAME
      rw [if_neg hWB, if_pos hSAME]
      have hcl : ∀ i, ZRAM_FLAG_SHIFT ≤ i → i < 64 → i ≠ ZRAM_SAME →
          zram_test_flag
              (zram_set_obj_size (zram_set_entry (zram_clear_flag s3 ZRAM_SAME) 0) 0)
              i = zram_test_flag s3 i := by
        intro i h1 h2 h3
        rw [test_set_obj_size_zero _ _ h1]
        show zram_test_flag (zram_clear_flag s3 ZRAM_SAME) i = zram_test_flag s3 i
        rw [test_clear_flag _ _ _ (by decide)]
        simp [h2, h3]
      refine ⟨?_, ?_, ?_, ?_, ?_, ?_, ?_, ?_, ?_, ?_⟩
      · rw [hcl _ (by decide) (by decide) (by decide)]; exact hB24
      · rw [hcl _ (by decide) (by decide) (by decide)]; exact hB27
      · rw [hcl _ (by decide) (by decide) (by decide)]; exact hB29
      · rw [hcl _ (by decide) (by decide) (by decide)]; exact hB30
      · rw [hcl _ (by decide) (by decide) (by decide)]; exact hB28
      · rw [hcl _ (by decide) (by decide) (by decide), hB26]; exact hWBs
      · rw [test_set_obj_size_zero _ _ (by decide)]
        show zram_test_flag (zram_clear_flag s3 ZRAM_SAME) ZRAM_SAME = _
        rw [test_clear_flag _ _ _ (by decide)]
        simp [hWBs]
      · rfl
      · rw [count_set_obj_size _ _ (by decide)]
        show zram_get_idle_count (zram_clear_flag s3 ZRAM_SAME) = _
        rw [count_clear_flag _ _ (by decide) hlt3]
        exact hC
      · simp only [hWBs, hSAMEs, Bool.false_or, Bool.true_or, if_true]
        exact size_set_obj_size _ _ (by decide)
    · have hSAMEs : zram_test_flag s ZRAM_SAME = false := by
        rw [← hB25]; simp [hSAME]
      by_cases hE : zram_get_entry s3 = 0
      · have hEs : s.payload = 0 := by
          rw [← hA]; exact hE
        rw [if_neg hWB, if_neg hSAME, if_pos hE]
        refine ⟨hB24, hB27, hB29, hB30, hB28, ?_, ?_, ?_, hC, ?_⟩
        · rw [hB26]; exact hWBs
        · simp [hB25, hSAMEs, hWBs]
        · rw [hA]; exact hEs
        · simp [hWBs, hSAMEs, hEs, hD]
      · have hEs : s.payload ≠ 0 := by
          rw [← hA]; exact hE
        rw [if_neg hWB, if_neg hSAME, if_neg hE]
        refine ⟨?_, ?_, ?_, ?_, ?_, ?_, ?_, ?_, ?_, ?_⟩
        · rw [test_set_obj_size_zero _ _ (by decide)]; exact hB24
        · rw [test_set_obj_size_zero _ _ (by decide)]; exact hB27
        · rw [test_set_obj_size_zero _ _ (by decide)]; exact hB29
        · rw [test_set_obj_size_zero _ _ (by decide)]; exact hB30
        · rw [test_set_obj_size_zero _ _ (by decide)]; exact hB28
        · rw [test_set_obj_size_zero _ _ (by decide)]
          show zram_test_flag s3 ZRAM_WB = false
          rw [hB26]; exact hWBs
        · rw [test_set_obj_size_zero _ _ (by decide)]
          show zram_test_flag s3 ZRAM_SAME = _
          simp [hB25, hSAMEs, hWBs]
        · rfl
        · rw [count_set_obj_size _ _ (by decide)]; exact hC
        · have hcond : (zram_test_flag s ZRAM_WB || zram_test_flag s ZRAM_SAME ||
              decide (s.payload ≠ 0)) = true := by
            simp [hWBs, hSAMEs, hEs]
          rw [hcond, if_pos rfl]
          exact size_set_obj_size _ 0 (by decide)

/-- C7 witness: a same-filled slot (scalar 42) that is idle with count 1
and has `UNDER_WB` set; `zram_free_page` clears `SAME`, `IDLE`, the
count and the payload, zeroes the size, and leaves `UNDER_WB`. -/
theorem zram_free_page_spec_witness :
    zram_test_flag
        (zram_free_page ⟨(1 <<< 61) ||| BIT 29 ||| BIT 27 ||| BIT 25 ||| 100, 42⟩)
        ZRAM_LOCK =
      zram_test_flag ⟨(1 <<< 61) ||| BIT 29 ||| BIT 27 ||| BIT 25 ||| 100, 42⟩
        ZRAM_LOCK ∧
      zram_test_flag
          (zram_free_page ⟨(1 <<< 61) ||| BIT 29 ||| BIT 27 ||| BIT 25 ||| 100, 42⟩)
          ZRAM_UNDER_WB =
        zram_test_flag ⟨(1 <<< 61) ||| BIT 29 ||| BIT 27 ||| BIT 25 ||| 100, 42⟩
          ZRAM_UNDER_WB ∧
      zram_test_flag
          (zram_free_page ⟨(1 <<< 61) ||| BIT 29 ||| BIT 27 ||| BIT 25 ||| 100, 42⟩)
          ZRAM_IDLE = false ∧
      zram_test_flag
          (zram_free_page ⟨(1 <<< 61) ||| BIT 29 ||| BIT 27 ||| BIT 25 ||| 100, 42⟩)
          ZRAM_COMPRESS_LOW = false ∧
      zram_test_flag
          (zram_free_page ⟨(1 <<< 61) ||| BIT 29 ||| BIT 27 ||| BIT 25 ||| 100, 42⟩)
          ZRAM_HUGE = false ∧
      zram_test_flag
          (zram_free_page ⟨(1 <<< 61) ||| BIT 29 ||| BIT 27 ||| BIT 25 ||| 100, 42⟩)
          ZRAM_WB = false ∧
      zram_test_flag
          (zram_free_page ⟨(1 <<< 61) ||| BIT 29 ||| BIT 27 ||| BIT 25 ||| 100, 42⟩)
          ZRAM_SAME =
        (if zram_test_flag ⟨(1 <<< 61) ||| BIT 29 ||| BIT 27 ||| BIT 25 ||| 100, 42⟩
            ZRAM_WB then
          zram_test_flag ⟨(1 <<< 61) ||| BIT 29 ||| BIT 27 ||| BIT 25 ||| 100, 42⟩
            ZRAM_SAME
        else false) ∧
      (zram_free_page
          ⟨(1 <<< 61) ||| BIT 29 ||| BIT 27 ||| BIT 25 ||| 100, 42⟩).payload = 0 ∧
      zram_get_idle_count
          (zram_free_page ⟨(1 <<< 61) ||| BIT 29 ||| BIT 27 ||| BIT 25 ||| 100, 42⟩) =
        (if zram_test_flag ⟨(1 <<< 61) ||| BIT 29 ||| BIT 27 ||| BIT 25 ||| 100, 42⟩
            ZRAM_IDLE then 0
        else zram_get_idle_count
          ⟨(1 <<< 61) ||| BIT 29 ||| BIT 27 ||| BIT 25 ||| 100, 42⟩) ∧
      zram_get_obj_size
          (zram_free_page ⟨(1 <<< 61) ||| BIT 29 ||| BIT 27 ||| BIT 25 ||| 100, 42⟩) =
        (if zram_test_flag ⟨(1 <<< 61) ||| BIT 29 ||| BIT 27 ||| BIT 25 ||| 100, 42⟩
              ZRAM_WB ||
            zram_test_flag ⟨(1 <<< 61) ||| BIT 29 ||| BIT 27 ||| BIT 25 ||| 100, 42⟩
              ZRAM_SAME ||
            decide ((42 : Nat) ≠ 0) then 0
        else zram_get_obj_size
          ⟨(1 <<< 61) ||| BIT 29 ||| BIT 27 ||| BIT 25 ||| 100, 42⟩) :=
  zram_free_page_spec ⟨(1 <<< 61) ||| BIT 29 ||| BIT 27 ||| BIT 25 ||| 100, 42⟩
    (by decide)

/-- C7 counterexample: on the slot with flags word 5 (stored size 5, no
flag bits) and a null entry, `zram_free_page` returns through the
early-return path and leaves the size at 5, while the claim requires it
to become 0. -/
theorem zram_free_page_leaves_size :
    zram_get_obj_size (zram_free_page ⟨5, 0⟩) = 5 ∧ (5 : Nat) ≠ 0 := by
  decide

/-! ## C1: same-fill round trip -/

/-- Helper: `zram_free_page` always ends with `ZRAM_WB` clear. -/
theorem free_page_wb_false (s : ZramSlot) :
    zram_test_flag (zram_free_page s) ZRAM_WB = false := by
  unfold zram_free_page
  set s3 := free_step_clear ZRAM_HUGE
    (free_step_clear ZRAM_COMPRESS_LOW (free_step_idle s)) with hs3
  unfold free_step_payload
  by_cases hWB : zram_test_flag s3 ZRAM_WB
  · rw [if_pos hWB, test_set_obj_size_zero _ _ (by decide)]
    show zram_test_flag (zram_clear_flag s3 ZRAM_WB) ZRAM_WB = false
    rw [test_clear_flag _ _ _ (by decide)]
    simp
  · simp only [Bool.not_eq_true] at hWB
    rw [if_neg (by simp [hWB])]
    by_cases hSAME : zram_test_flag s3 ZRAM_SAME
    · rw [if_pos hSAME, test_set_obj_size_zero _ _ (by decide)]
      show zram_test_flag (zram_clear_flag s3 ZRAM_SAME) ZRAM_WB = false
      rw [test_clear_flag _ _ _ (by decide)]
      simp [hWB]
    · rw [if_neg hSAME]
      by_cases hE : zram_get_entry s3 = 0
      · rw [if_pos hE]
        exact hWB
      · rw [if_neg hE, test_set_obj_size_zero _ _ (by decide)]
        exact hWB

/-- Boolean check that two pages agree on their first `n` lanes. -/
def page_eq_upto (n : Nat) (P Q : Page) : Bool :=
  (List.range n).all (fun i => P i == Q i)

theorem page_eq_upto_eq (n : Nat) (P Q : Page) (h : page_eq_upto n P Q = true) :
    ∀ i, i < n → P i = Q i := by
  intro i hi
  have := (List.all_eq_true).mp h i (List.mem_range.mpr hi)
  exact beq_iff_eq.mp this

/-- Helper: a page all of whose lanes equal `v` is detected by
`page_same_filled`, which yields exactly `v`. -/
theorem page_same_filled_const (B : Page) (v : Nat)
    (h : ∀ i, i < PAGE_WORDS → B i = v) : page_same_filled B = some v := by
  have h0 : B 0 = v := h 0 (by decide)
  have hlast : B (PAGE_WORDS - 1) = v := h _ (by decide)
  have hne : ¬ (B (PAGE_WORDS - 1) ≠ B 0) := by
    rw [h0, hlast]
    exact fun hc => hc rfl
  have hall : ((List.range' 1 (PAGE_WORDS - 1 - 1)).all
      (fun pos => B pos == B 0)) = true := by
    rw [List.all_eq_true]
    intro pos hpos
    have hmem := List.mem_range'_1.mp hpos
    have hv : B pos = v := h pos (by
      have : PAGE_WORDS - 1 - 1 = 510 := by decide
      omega)
    rw [hv, h0]
    exact beq_self_eq_true v
  unfold page_same_filled
  rw [if_neg hne, if_pos hall, h0]

theorem accessed_payload (s : ZramSlot) : (zram_accessed s).payload = s.payload :=
  rfl

theorem accessed_test (s : ZramSlot) (i : Nat) (hi : i < 61)
    (hne : i ≠ ZRAM_IDLE) :
    zram_test_flag (zram_accessed s) i = zram_test_flag s i := by
  unfold zram_accessed
  rw [test_clear_idle_count, test_clear_flag _ _ _ (by decide)]
  have h64 : i < 64 := by omega
  simp [hi, h64, hne]

/-- C1: a full-page write of a constant-word page `B` (all lanes `v`)
is detected as same-filled and stored as the scalar `v` with `ZRAM_SAME`
set, and a subsequent full-page read of the slot fills the destination
entirely with `v` — i.e. returns exactly the lanes of `B` — for every
constant `v`, every previous slot state and every codec/pool behaviour. -/
theorem same_fill_round_trip (B : Page) (v : Nat) (s : ZramSlot)
    (comp_len entry : Nat) (pool_page decompressed : Page)
    (h : page_eq_upto PAGE_WORDS B (zram_fill_page v) = true) :
    page_same_filled B = some v ∧
      zram_test_flag (zram_bvec_write_slot B comp_len entry s) ZRAM_SAME = true ∧
      (zram_bvec_write_slot B comp_len entry s).payload = v ∧
      (__zram_bvec_read (zram_bvec_write_slot B comp_len entry s) true
          pool_page decompressed).2 = some (zram_fill_page v) ∧
      page_eq_upto PAGE_WORDS (zram_fill_page v) B = true := by
  have hBv : ∀ i, i < PAGE_WORDS → B i = v := fun i hi =>
    page_eq_upto_eq _ _ _ h i hi
  have hsame : page_same_filled B = some v := page_same_filled_const B v hBv
  have hw : zram_bvec_write_slot B comp_len entry s =
      zram_set_element (zram_set_flag (zram_free_page s) ZRAM_SAME) v := by
    unfold zram_bvec_write_slot
    rw [hsame]
  set t := zram_set_element (zram_set_flag (zram_free_page s) ZRAM_SAME) v
    with ht
  have htSAME : zram_test_flag t ZRAM_SAME = true := by
    rw [ht]
    show zram_test_flag (zram_set_flag (zram_free_page s) ZRAM_SAME)
      ZRAM_SAME = true
    rw [test_set_flag]
    simp
  have htpayload : t.payload = v := rfl
  have htWB : zram_test_flag t ZRAM_WB = false := by
    rw [ht]
    show zram_test_flag (zram_set_flag (zram_free_page s) ZRAM_SAME)
      ZRAM_WB = false
    rw [test_set_flag, free_page_wb_false]
    decide
  refine ⟨hsame, ?_, ?_, ?_, ?_⟩
  · rw [hw]; exact htSAME
  · rw [hw]; exact htpayload
  · rw [hw]
    show (__zram_bvec_read t true pool_page decompressed).2 =
      some (zram_fill_page v)
    unfold __zram_bvec_read
    simp only [if_true]
    have haWB : zram_test_flag (zram_accessed t) ZRAM_WB = false := by
      rw [accessed_test _ _ (by decide) (by decide)]
      exact htWB
    have haSAME : zram_test_flag (zram_accessed t) ZRAM_SAME = true := by
      rw [accessed_test _ _ (by decide) (by decide)]
      exact htSAME
    have hap : (zram_accessed t).payload = v := htpayload
    rw [if_neg (by simp [haWB])]
    rw [if_pos (by simp [haSAME])]
    show some (zram_fill_page
      (if zram_get_entry (zram_accessed t) ≠ 0
        then zram_get_element (zram_accessed t) else 0)) = _
    have : (if zram_get_entry (zram_accessed t) ≠ 0
        then zram_get_element (zram_accessed t) else 0) = v := by
      show (if (zram_accessed t).payload ≠ 0 then (zram_accessed t).payload
        else 0) = v
      rw [hap]
      by_cases hv : v = 0
      · simp [hv]
      · simp [hv]
    rw [this]
  · rw [page_eq_upto, List.all_eq_true]
    intro i hi
    have := hBv i (List.mem_range.mp hi)
    simp [zram_fill_page, this]

/-- C1 witness: page of constant lanes 1193046, written over a fresh
slot. -/
theorem same_fill_round_trip_witness :
    page_eq_upto PAGE_WORDS (fun _ => 1193046) (zram_fill_page 1193046) = true ∧
      page_same_filled (fun _ => 1193046) = some 1193046 ∧
      zram_test_flag (zram_bvec_write_slot (fun _ => 1193046) 0 0 ⟨0, 0⟩)
        ZRAM_SAME = true ∧
      (zram_bvec_write_slot (fun _ => 1193046) 0 0 ⟨0, 0⟩).payload = 1193046 ∧
      (__zram_bvec_read (zram_bvec_write_slot (fun _ => 1193046) 0 0 ⟨0, 0⟩) true
          (fun _ => 0) (fun _ => 0)).2 = some (zram_fill_page 1193046) ∧
      page_eq_upto PAGE_WORDS (zram_fill_page 1193046) (fun _ => 1193046) = true := by
  have h : page_eq_upto PAGE_WORDS (fun _ => 1193046)
      (zram_fill_page 1193046) = true := by
    rw [page_eq_upto, List.all_eq_true]
    intro i _
    exact beq_self_eq_true _
  have := same_fill_round_trip (fun _ => 1193046) 1193046 ⟨0, 0⟩ 0 0
    (fun _ => 0) (fun _ => 0) h
  exact ⟨h, this.1, this.2.1, this.2.2.1, this.2.2.2.1, this.2.2.2.2⟩

/-! ## C3: writeback slot selection -/

/-- Slot-eligibility test of the `writeback_store` loop
(zram_drv.c:981-996): the sequence of `goto next` guards executed under
the slot lock.  Returns `true` iff the slot is selected for eviction. -/
def wb_select (mode wb_idle_min : Nat) (s : ZramSlot) : Bool :=
  if !zram_allocated s then false
  else if zram_test_flag s ZRAM_WB || !zram_test_flag s ZRAM_COMPRESS_LOW ||
      zram_test_flag s ZRAM_UNDER_WB then false
  else if (mode &&& IDLE_WRITEBACK != 0) &&
      (!zram_test_flag s ZRAM_IDLE ||
        decide (zram_get_idle_count s < wb_idle_min)) then false
  else if (mode &&& HUGE_WRITEBACK != 0) && !zram_test_flag s ZRAM_HUGE then
    false
  else true

/-- Slot marking of a selected slot (zram_drv.c:1001-1010): set
`UNDER_WB`, then set `IDLE` as the race-closure token. -/
def wb_mark (s : ZramSlot) : ZramSlot :=
  zram_set_flag (zram_set_flag s ZRAM_UNDER_WB) ZRAM_IDLE

/-- C3 (amended): in huge mode a slot is selected iff it is allocated,
not `WB`, not `UNDER_WB`, carries `HUGE` — and additionally carries
`COMPRESS_LOW`: unlike what the claim states, the `COMPRESS_LOW` guard
(zram_drv.c:986) applies to huge mode as well. -/
theorem wb_select_huge_mode (wb_idle_min : Nat) (s : ZramSlot) :
    wb_select HUGE_WRITEBACK wb_idle_min s =
      (zram_allocated s && !zram_test_flag s ZRAM_WB &&
        zram_test_flag s ZRAM_COMPRESS_LOW &&
        !zram_test_flag s ZRAM_UNDER_WB && zram_test_flag s ZRAM_HUGE) := by
  unfold wb_select
  cases ha : zram_allocated s <;>
    cases h1 : zram_test_flag s ZRAM_WB <;>
      cases h2 : zram_test_flag s ZRAM_COMPRESS_LOW <;>
        cases h3 : zram_test_flag s ZRAM_UNDER_WB <;>
          cases h4 : zram_test_flag s ZRAM_HUGE <;>
            simp [HUGE_WRITEBACK, IDLE_WRITEBACK]

/-- C3 counterexample: a huge slot (stored size `PAGE_SIZE`, `HUGE`
set) that is allocated, neither `WB` nor `UNDER_WB`, but without
`COMPRESS_LOW`, is skipped by huge-mode writeback although the claim
says every such slot is selected. -/
theorem wb_select_huge_needs_compress_low :
    zram_allocated ⟨4096 + BIT 28, 5⟩ = true ∧
      zram_test_flag ⟨4096 + BIT 28, 5⟩ ZRAM_WB = false ∧
      zram_test_flag ⟨4096 + BIT 28, 5⟩ ZRAM_UNDER_WB = false ∧
      zram_test_flag ⟨4096 + BIT 28, 5⟩ ZRAM_HUGE = true ∧
      wb_select HUGE_WRITEBACK ZRAM_WB_IDLE_DEFAULT ⟨4096 + BIT 28, 5⟩ = false := by
  decide

/-! ## C2: request validation -/

/-- `valid_io_request` (zram_drv.c:200).  `start` is the start sector
(`sector_t`, 64 bits), `size` the byte count (`unsigned int`); the
sector sum is a `u64` addition, hence the `% 2 ^ 64`. -/
def valid_io_request (disksize start size : Nat) : Bool :=
  if start &&& (ZRAM_SECTOR_PER_LOGICAL_BLOCK - 1) != 0 then false
  else if size &&& (ZRAM_LOGICAL_BLOCK_SIZE - 1) != 0 then false
  else
    let endv := (start + (size >>> SECTOR_SHIFT)) % 2 ^ 64
    let bound := disksize >>> SECTOR_SHIFT
    if decide (start ≥ bound) || decide (endv > bound) ||
        decide (start > endv) then false
    else true

/-- Device state: slot table, backing bitmap, writeback budget and the
statistics counters the claims observe. -/
structure ZramDev where
  disksize : Nat
  table : List ZramSlot
  bitmap : List Bool
  wb_limit_enable : Bool
  bd_wb_limit : Nat
  invalid_io : Nat
  notify_free : Nat
  miss_free : Nat
  deriving Repr, DecidableEq

/-- `zram_make_request` (zram_drv.c:2384): validation and dispatch.
`__zram_make_request` (the read/write pipeline) is the `pipeline`
parameter; the returned `Bool` is `false` when the bio is errored
without entering the pipeline. -/
def zram_make_request (pipeline : ZramDev → ZramDev × Bool) (d : ZramDev)
    (start size : Nat) : ZramDev × Bool :=
  if valid_io_request d.disksize start size then pipeline d
  else ({ d with invalid_io := d.invalid_io + 1 }, false)

theorem and_two_pow_sub_one (w k : Nat) : w &&& (2 ^ k - 1) = w % 2 ^ k := by
  apply Nat.eq_of_testBit_eq
  intro i
  rw [Nat.testBit_and, Nat.testBit_two_pow_sub_one, testBit_mod_pow,
    Bool.and_comm]

/-- C2 (amended): request validation and dispatch.  `valid_io_request`
accepts exactly the requests whose start sector is logical-block
aligned, whose byte count is a logical-block multiple and whose byte
range lies inside the device with the start sector strictly inside
(`start * 512 < disksize`) — for empty requests at the very end of the
device this start-strictness rejects although the empty byte range is
contained.  An invalid request makes `zram_make_request` bump
`invalid_io` by exactly one and error the bio without invoking the
pipeline, leaving the table untouched; a valid one is passed to the
pipeline. -/
theorem zram_make_request_spec (pipeline : ZramDev → ZramDev × Bool)
    (d : ZramDev) (start size : Nat) (hd : d.disksize % PAGE_SIZE = 0)
    (hd2 : d.disksize < 2 ^ 63) (hs : size < 2 ^ 32) :
    (valid_io_request d.disksize start size = true ↔
      (start % ZRAM_SECTOR_PER_LOGICAL_BLOCK = 0 ∧
        size % ZRAM_LOGICAL_BLOCK_SIZE = 0 ∧
        start * 512 < d.disksize ∧ start * 512 + size ≤ d.disksize)) ∧
      zram_make_request pipeline d start size =
        (if valid_io_request d.disksize start size then pipeline d
          else ({ d with invalid_io := d.invalid_io + 1 }, false)) := by
  refine ⟨?_, rfl⟩
  have hPS : PAGE_SIZE = 4096 := rfl
  rw [hPS] at hd
  have h512 : d.disksize % 512 = 0 := by omega
  have e8 : ZRAM_SECTOR_PER_LOGICAL_BLOCK = 2 ^ 3 := rfl
  have e4096 : ZRAM_LOGICAL_BLOCK_SIZE = 2 ^ 12 := rfl
  simp only [valid_io_request, e8, e4096, and_two_pow_sub_one,
    Nat.shiftRight_eq_div_pow, SECTOR_SHIFT]
  have p9 : (2 : Nat) ^ 9 = 512 := rfl
  have p3 : (2 : Nat) ^ 3 = 8 := rfl
  have p12 : (2 : Nat) ^ 12 = 4096 := rfl
  have p64 : (2 : Nat) ^ 64 = 18446744073709551616 := by norm_num
  have p63 : (2 : Nat) ^ 63 = 9223372036854775808 := by norm_num
  have p32 : (2 : Nat) ^ 32 = 4294967296 := by norm_num
  rw [p9, p3, p12, p64]
  rw [p63] at hd2
  rw [p32] at hs
  by_cases ha : start % 8 = 0
  · by_cases hb : size % 4096 = 0
    · have haf : ((start % 8 != 0) : Bool) = false := by simp [ha]
      have hbf : ((size % 4096 != 0) : Bool) = false := by simp [hb]
      rw [haf, hbf]
      simp only [Bool.false_eq_true, if_false]
      split_ifs with hcond
      · simp only [Bool.or_eq_true, decide_eq_true_eq] at hcond
        constructor
        · intro hfe
          exact absurd hfe (by simp)
        · rintro ⟨-, -, h3, h4⟩
          exfalso
          refine hcond.elim
            (fun hab => hab.elim (fun h => by omega) (fun h => by omega))
            (fun h => by omega)
      · simp only [Bool.or_eq_true, decide_eq_true_eq] at hcond
        have h1 : ¬ start ≥ d.disksize / 512 :=
          fun h => hcond (Or.inl (Or.inl h))
        have h2 : ¬ (start + size / 512) % 18446744073709551616 >
            d.disksize / 512 := fun h => hcond (Or.inl (Or.inr h))
        have h3 : ¬ start > (start + size / 512) % 18446744073709551616 :=
          fun h => hcond (Or.inr h)
        constructor
        · intro _
          refine ⟨ha, hb, ?_, ?_⟩ <;> omega
        · intro _
          rfl

    · have hbne : (size % 4096 != 0) = true := by simp [hb]
      simp [hbne, hb]
  · have hane : (start % 8 != 0) = true := by simp [ha]
    simp [hane, ha]

/-- C2 witness: device of 8192 bytes; the aligned in-range request
(sector 8, 4096 bytes) is accepted and dispatched. -/
theorem zram_make_request_spec_witness :
    (valid_io_request 8192 8 4096 = true ↔
      (8 % ZRAM_SECTOR_PER_LOGICAL_BLOCK = 0 ∧
        4096 % ZRAM_LOGICAL_BLOCK_SIZE = 0 ∧
        8 * 512 < 8192 ∧ 8 * 512 + 4096 ≤ 8192)) ∧
      zram_make_request (fun e => (e, true))
          ⟨8192, [], [], false, 0, 0, 0, 0⟩ 8 4096 =
        (if valid_io_request 8192 8 4096 then
          (⟨8192, [], [], false, 0, 0, 0, 0⟩, true)
        else (⟨8192, [], [], false, 0, 0, 0, 1⟩, false)) :=
  zram_make_request_spec (fun e => (e, true)) ⟨8192, [], [], false, 0, 0, 0, 0⟩
    8 4096 (by decide) (by decide) (by decide)

/-- C2 counterexample: the empty request at the end boundary (disksize
4096 bytes, start sector 8, size 0) is sector-aligned, a logical-block
multiple, and its byte range `[4096, 4096)` is (vacuously) contained in
the device, yet `valid_io_request` rejects it — the claim's
"otherwise the request proceeds" fails. -/
theorem valid_io_request_rejects_empty_tail :
    valid_io_request 4096 8 0 = false ∧
      8 % ZRAM_SECTOR_PER_LOGICAL_BLOCK = 0 ∧
      0 % ZRAM_LOGICAL_BLOCK_SIZE = 0 ∧ 8 * 512 + 0 ≤ 4096 := by
  decide

/-! ## C8: backing-block allocation -/

theorem getD_set_self (l : List Bool) (i : Nat) (a : Bool) (h : i < l.length) :
    (l.set i a).getD i false = a := by
  rw [List.getD_eq_getElem?_getD, List.getElem?_set_self (by omega)]
  rfl

theorem getD_set_ne (l : List Bool) (i j : Nat) (a : Bool) (h : i ≠ j) :
    (l.set i a).getD j false = l.getD j false := by
  rw [List.getD_eq_getElem?_getD, List.getElem?_set_ne h,
    ← List.getD_eq_getElem?_getD]

/-- `find_next_zero_bit(addr, size, offset)` of the kernel: least index
in `[offset, size)` whose bit is clear, or `size` when there is none. -/
def find_next_zero_bit (bm : List Bool) (size offset : Nat) : Nat :=
  ((List.range' offset (size - offset)).find?
    (fun i => !bm.getD i false)).getD size

/-- `alloc_block_bdev` (zram_drv.c:704): scan for a zero bit starting
at index 1 (bit 0 is reserved), set it, return its index; return the
0 sentinel when the bitmap is full.  The `test_and_set_bit` retry is
contention-only and cannot fire in the sequential model. -/
def alloc_block_bdev (bm : List Bool) : Nat × List Bool :=
  let blk_idx := find_next_zero_bit bm bm.length 1
  if blk_idx = bm.length then (0, bm)
  else (blk_idx, bm.set blk_idx true)

/-- `free_block_bdev` (zram_drv.c:724). -/
def free_block_bdev (bm : List Bool) (blk_idx : Nat) : List Bool :=
  bm.set blk_idx false

/-- C8: `alloc_block_bdev` either returns the 0 sentinel — and only
when every bit in `[1, nr_pages)` is already set, leaving the bitmap
unchanged — or an index `b` with `1 ≤ b < nr_pages` whose bit was clear
before the call and is set afterwards; it never allocates block 0 and
never sets block 0's bit. -/
theorem alloc_block_bdev_spec (bm : List Bool) :
    ((alloc_block_bdev bm).1 = 0 ∧ (alloc_block_bdev bm).2 = bm ∧
        ∀ i, 1 ≤ i → i < bm.length → bm.getD i false = true) ∨
      (1 ≤ (alloc_block_bdev bm).1 ∧ (alloc_block_bdev bm).1 < bm.length ∧
        bm.getD (alloc_block_bdev bm).1 false = false ∧
        (alloc_block_bdev bm).2.getD (alloc_block_bdev bm).1 false = true ∧
        (alloc_block_bdev bm).2.getD 0 false = bm.getD 0 false) := by
  unfold alloc_block_bdev find_next_zero_bit
  cases hf : (List.range' 1 (bm.length - 1)).find? (fun i => !bm.getD i false) with
  | none =>
    left
    simp only [hf, Option.getD_none, if_pos rfl]
    refine ⟨rfl, rfl, ?_⟩
    intro i h1 h2
    have hmem : i ∈ List.range' 1 (bm.length - 1) :=
      List.mem_range'_1.mpr ⟨h1, by omega⟩
    have hth := List.find?_eq_none.mp hf i hmem
    simp at hth
    rw [List.getD_eq_getElem?_getD]
    exact hth
  | some b =>
    right
    have hp := List.find?_some hf
    have hmem := List.mem_range'_1.mp (List.mem_of_find?_eq_some hf)
    have hb1 : 1 ≤ b := hmem.1
    have hblen : b < bm.length := by omega
    have hne : ¬ b = bm.length := by omega
    simp only [hf, Option.getD_some, if_neg hne]
    refine ⟨hb1, hblen, ?_, ?_, ?_⟩
    · simp at hp
      rw [List.getD_eq_getElem?_getD]
      exact hp
    · exact getD_set_self bm b true hblen
    · exact getD_set_ne bm b 0 true (by omega)

/-! ## C10: swap slot-free notification -/

/-- `zram_slot_free_notify` (zram_drv.c:2402).  `bit_spin_trylock` on
the slot's `LOCK` bit: it fails iff the bit is already set; on success
the bit is set, the slot freed, and the bit cleared again on unlock. -/
def zram_slot_free_notify (d : ZramDev) (index : Nat) : ZramDev :=
  let d1 := { d with notify_free := d.notify_free + 1 }
  let s := d1.table.getD index default
  if zram_test_flag s ZRAM_LOCK then
    { d1 with miss_free := d1.miss_free + 1 }
  else
    let s1 := zram_set_flag s ZRAM_LOCK
    let s2 := zram_free_page s1
    let s3 := zram_clear_flag s2 ZRAM_LOCK
    { d1 with table := d1.table.set index s3 }

/-- C10: every call bumps `notify_free`; when the slot lock is already
held the call only bumps `miss_free` and returns with the whole slot
table — hence the slot's entire state — unchanged, silently dropping
the free notification; when the lock is available the slot is freed
under the lock (taken and released around `zram_free_page`) and
`miss_free` is untouched. -/
theorem zram_slot_free_notify_spec (d : ZramDev) (index : Nat) :
    (zram_slot_free_notify d index).notify_free = d.notify_free + 1 ∧
      (zram_slot_free_notify d index).miss_free =
        (if zram_test_flag (d.table.getD index default) ZRAM_LOCK then
          d.miss_free + 1
        else d.miss_free) ∧
      (zram_slot_free_notify d index).table =
        (if zram_test_flag (d.table.getD index default) ZRAM_LOCK then d.table
        else d.table.set index
          (zram_clear_flag
            (zram_free_page
              (zram_set_flag (d.table.getD index default) ZRAM_LOCK))
            ZRAM_LOCK)) ∧
      (zram_slot_free_notify d index).disksize = d.disksize ∧
      (zram_slot_free_notify d index).bitmap = d.bitmap ∧
      (zram_slot_free_notify d index).invalid_io = d.invalid_io := by
  unfold zram_slot_free_notify
  by_cases h : zram_test_flag (d.table.getD index default) ZRAM_LOCK
  · rw [if_pos h, if_pos h, if_pos h]
    exact ⟨rfl, rfl, rfl, rfl, rfl, rfl⟩
  · rw [if_neg h, if_neg h, if_neg h]
    exact ⟨rfl, rfl, rfl, rfl, rfl, rfl⟩

/-! ## C6: writeback batch rollback on bio error -/

theorem getD_set_self_gen {α : Type} (l : List α) (i : Nat) (a e : α)
    (h : i < l.length) : (l.set i a).getD i e = a := by
  rw [List.getD_eq_getElem?_getD, List.getElem?_set_self (by omega)]
  rfl

theorem getD_set_ne_gen {α : Type} (l : List α) (i j : Nat) (a e : α)
    (h : i ≠ j) : (l.set i a).getD j e = l.getD j e := by
  rw [List.getD_eq_getElem?_getD, List.getElem?_set_ne h,
    ← List.getD_eq_getElem?_getD]

theorem getD_oob {α : Type} (l : List α) (i : Nat) (e : α)
    (h : l.length ≤ i) : l.getD i e = e := by
  rw [List.getD_eq_getElem?_getD, List.getElem?_eq_none (by omega)]
  rfl

theorem getD_mem {α : Type} (l : List α) (i : Nat) (e : α)
    (h : i < l.length) : l.getD i e ∈ l := by
  rw [List.getD_eq_getElem?_getD, List.getElem?_eq_getElem h]
  exact List.getElem_mem h

/-- Per-slot rollback of a writeback batch entry (zram_drv.c:839-841 on
error; the same flag updates appear in the reconcile-skip path at
zram_drv.c:867-869): clear `UNDER_WB`, clear `IDLE`, clear the idle
count. -/
def rollback_slot (s : ZramSlot) : ZramSlot :=
  zram_clear_idle_count
    (zram_clear_flag (zram_clear_flag s ZRAM_UNDER_WB) ZRAM_IDLE)

/-- Error loop of `wait_for_writeback_batch` (zram_drv.c:836-844):
roll back every batch slot and free its backing block
`start_blkidx + i`. -/
def wb_batch_rollback :
    List ZramSlot → List Bool → Nat → List Nat → List ZramSlot × List Bool
  | t, bm, _, [] => (t, bm)
  | t, bm, blk, idx :: rest =>
    wb_batch_rollback (t.set idx (rollback_slot (t.getD idx default)))
      (free_block_bdev bm blk) (blk + 1) rest

/-- Success loop of `wait_for_writeback_batch` (zram_drv.c:852-887):
re-check each slot; a freed or re-populated slot (no longer allocated
or no longer `IDLE`) is rolled back and its block freed; otherwise the
slot is freed, marked `WB` with the block index as element, the page
counted and the write budget debited.  Returns the updated table,
bitmap and budget together with `wb_pages_nr`. -/
def wb_batch_reconcile :
    List ZramSlot → List Bool → Bool → Nat → Nat → List Nat →
      List ZramSlot × List Bool × Nat × Nat
  | t, bm, _, lim, _, [] => (t, bm, lim, 0)
  | t, bm, lim_en, lim, blk, idx :: rest =>
    let s := t.getD idx default
    if !zram_allocated s || !zram_test_flag s ZRAM_IDLE then
      wb_batch_reconcile (t.set idx (rollback_slot s))
        (free_block_bdev bm blk) lim_en lim (blk + 1) rest
    else
      let s4 := zram_set_element
        (zram_set_flag (zram_clear_flag (zram_free_page s) ZRAM_UNDER_WB)
          ZRAM_WB) blk
      let lim2 := if lim_en && decide (0 < lim) then
          lim - (1 <<< (PAGE_SHIFT - 12))
        else lim
      let r := wb_batch_reconcile (t.set idx s4) bm lim_en lim2 (blk + 1) rest
      (r.1, r.2.1, r.2.2.1, r.2.2.2 + 1)

/-- `wait_for_writeback_batch` (zram_drv.c:818): submit one bio over
`nr_write` consecutive blocks from `start_blkidx`; `bio_err` is the
outcome of `submit_bio_wait`.  Returns the updated device and
`wb_pages_nr`, the number of successfully reconciled pages (0 on
error). -/
def wait_for_writeback_batch (d : ZramDev) (start_blkidx : Nat)
    (batch : List Nat) (bio_err : Bool) : ZramDev × Nat :=
  if bio_err then
    let r := wb_batch_rollback d.table d.bitmap start_blkidx batch
    ({ d with table := r.1, bitmap := r.2 }, 0)
  else
    let r := wb_batch_reconcile d.table d.bitmap d.wb_limit_enable
      d.bd_wb_limit start_blkidx batch
    ({ d with table := r.1, bitmap := r.2.1, bd_wb_limit := r.2.2.1 },
      r.2.2.2)

theorem rollback_slot_flags (s : ZramSlot) (i : Nat) :
    zram_test_flag (rollback_slot s) i =
      (zram_test_flag s i && decide (i < 61) && !decide (i = ZRAM_UNDER_WB) &&
        !decide (i = ZRAM_IDLE)) := by
  unfold rollback_slot
  rw [test_clear_idle_count, test_clear_flag _ _ _ (by decide),
    test_clear_flag _ _ _ (by decide)]
  by_cases h1 : i < 61
  · have h2 : i < 64 := by omega
    simp only [h1, h2, decide_eq_true_eq, if_true]
    cases hx : zram_test_flag s i <;>
      cases hy : (decide (i = ZRAM_UNDER_WB)) <;>
        cases hz : (decide (i = ZRAM_IDLE)) <;> simp
  · have h1f : decide (i < 61) = false := by simp [h1]
    rw [h1f]
    simp

theorem rollback_slot_payload (s : ZramSlot) :
    (rollback_slot s).payload = s.payload := rfl

theorem rollback_slot_count (s : ZramSlot) :
    zram_get_idle_count (rollback_slot s) = 0 :=
  count_clear_idle_count _

theorem rollback_slot_size (s : ZramSlot) :
    zram_get_obj_size (rollback_slot s) = zram_get_obj_size s := by
  unfold rollback_slot
  rw [size_clear_idle_count, size_clear_flag _ _ (by decide) (by decide),
    size_clear_flag _ _ (by decide) (by decide)]

theorem rollback_slot_idem (s : ZramSlot) :
    rollback_slot (rollback_slot s) = rollback_slot s := by
  have hf : (rollback_slot (rollback_slot s)).flags = (rollback_slot s).flags := by
    apply Nat.eq_of_testBit_eq
    intro i
    show zram_test_flag (rollback_slot (rollback_slot s)) i =
      zram_test_flag (rollback_slot s) i
    rw [rollback_slot_flags, rollback_slot_flags]
    cases hx : zram_test_flag s i <;>
      cases hy : (decide (i < 61)) <;>
        cases hz : (decide (i = ZRAM_UNDER_WB)) <;>
          cases hw : (decide (i = ZRAM_IDLE)) <;> rfl
  have hp : (rollback_slot (rollback_slot s)).payload = (rollback_slot s).payload :=
    rfl
  cases hr : rollback_slot (rollback_slot s) with
  | mk f p =>
    cases hr2 : rollback_slot s with
    | mk f2 p2 =>
      rw [hr, hr2] at hf hp
      simp at hf hp
      simp [hf, hp]

theorem wb_batch_rollback_table_len (batch : List Nat) :
    ∀ (t : List ZramSlot) (bm : List Bool) (blk : Nat),
      (wb_batch_rollback t bm blk batch).1.length = t.length := by
  induction batch with
  | nil => intro t bm blk; rfl
  | cons idx rest ih =>
    intro t bm blk
    show (wb_batch_rollback (t.set idx (rollback_slot (t.getD idx default)))
      (free_block_bdev bm blk) (blk + 1) rest).1.length = t.length
    rw [ih]
    exact List.length_set t idx _

theorem wb_batch_rollback_getD (batch : List Nat) :
    ∀ (t : List ZramSlot) (bm : List Bool) (blk : Nat) (j : Nat),
      (∀ i ∈ batch, i < t.length) →
      (wb_batch_rollback t bm blk batch).1.getD j default =
        (if j ∈ batch then rollback_slot (t.getD j default)
          else t.getD j default) := by
  induction batch with
  | nil =>
    intro t bm blk j _
    simp [wb_batch_rollback]
  | cons idx rest ih =>
    intro t bm blk j hb
    have hidx : idx < t.length := hb idx (List.mem_cons_self _ _)
    have hb2 : ∀ i ∈ rest,
        i < (t.set idx (rollback_slot (t.getD idx default))).length := by
      intro i hi
      rw [List.length_set]
      exact hb i (List.mem_cons_of_mem _ hi)
    show (wb_batch_rollback (t.set idx (rollback_slot (t.getD idx default)))
        (free_block_bdev bm blk) (blk + 1) rest).1.getD j default = _
    rw [ih _ _ _ _ hb2]
    by_cases hji : j = idx
    · subst hji
      rw [getD_set_self_gen _ _ _ _ hidx]
      by_cases hjr : j ∈ rest
      · simp [hjr, rollback_slot_idem, List.mem_cons]
      · simp [hjr, List.mem_cons]
    · rw [getD_set_ne_gen _ _ _ _ _ (fun h => hji h.symm)]
      by_cases hjr : j ∈ rest
      · simp [hjr, List.mem_cons, hji]
      · simp [hjr, List.mem_cons, hji]

theorem set_false_getD (l : List Bool) (i : Nat) :
    (l.set i false).getD i false = false := by
  by_cases h : i < l.length
  · exact getD_set_self l i false h
  · exact getD_oob _ _ _ (by rw [List.length_set]; omega)

theorem wb_batch_rollback_bitmap (batch : List Nat) :
    ∀ (t : List ZramSlot) (bm : List Bool) (blk : Nat) (b : Nat),
      (wb_batch_rollback t bm blk batch).2.getD b false =
        (if blk ≤ b ∧ b < blk + batch.length then false
          else bm.getD b false) := by
  induction batch with
  | nil =>
    intro t bm blk b
    have hc : ¬ (blk ≤ b ∧ b < blk + ([] : List Nat).length) := by
      rw [List.length_nil]
      omega
    rw [show wb_batch_rollback t bm blk [] = (t, bm) from rfl, if_neg hc]
  | cons idx rest ih =>
    intro t bm blk b
    show (wb_batch_rollback (t.set idx (rollback_slot (t.getD idx default)))
        (free_block_bdev bm blk) (blk + 1) rest).2.getD b false = _
    rw [ih]
    by_cases hbb : b = blk
    · subst hbb
      have hc1 : ¬ (b + 1 ≤ b ∧ b < b + 1 + rest.length) := by omega
      have hc2e : b ≤ b ∧ b < b + (idx :: rest).length := by
        simp only [List.length_cons]
        omega
      rw [if_neg hc1, if_pos hc2e]
      exact set_false_getD bm b
    · by_cases hin : blk + 1 ≤ b ∧ b < blk + 1 + rest.length
      · rw [if_pos hin]
        have hp : blk ≤ b ∧ b < blk + (idx :: rest).length := by
          simp only [List.length_cons]
          omega
        rw [if_pos hp]
      · rw [if_neg hin]
        have hn : ¬ (blk ≤ b ∧ b < blk + (idx :: rest).length) := by
          simp only [List.length_cons]
          omega
        rw [if_neg hn]
        unfold free_block_bdev
        exact getD_set_ne _ _ _ _ (fun h => hbb h.symm)

theorem rollback_slot_keeps (s : ZramSlot) (i : Nat) (h1 : i < 61)
    (h2 : i ≠ ZRAM_UNDER_WB) (h3 : i ≠ ZRAM_IDLE) :
    zram_test_flag (rollback_slot s) i = zram_test_flag s i := by
  rw [rollback_slot_flags]
  simp [h1, h2, h3]

theorem rollback_slot_under_wb (s : ZramSlot) :
    zram_test_flag (rollback_slot s) ZRAM_UNDER_WB = false := by
  rw [rollback_slot_flags]
  simp

theorem rollback_slot_idle (s : ZramSlot) :
    zram_test_flag (rollback_slot s) ZRAM_IDLE = false := by
  rw [rollback_slot_flags]
  simp

/-- C6: when the batch bio fails, `wait_for_writeback_batch` returns 0
and, for every one of the `nr_write` recorded slots, clears
`ZRAM_UNDER_WB`, `ZRAM_IDLE` and the idle-count field and frees the
corresponding backing block `start_blkidx + i`; no slot's payload,
size, `SAME`, `WB` or `HUGE` flag changes anywhere in the table, and
the budget and counters are untouched — the data stays in memory. -/
theorem wb_batch_error_rollback (d : ZramDev) (start_blkidx : Nat)
    (batch : List Nat) (hb : ∀ i ∈ batch, i < d.table.length) :
    (wait_for_writeback_batch d start_blkidx batch true).2 = 0 ∧
      (∀ k, k < batch.length →
        zram_test_flag
            ((wait_for_writeback_batch d start_blkidx batch
              true).1.table.getD (batch.getD k 0) default) ZRAM_UNDER_WB =
            false ∧
          zram_test_flag
            ((wait_for_writeback_batch d start_blkidx batch
              true).1.table.getD (batch.getD k 0) default) ZRAM_IDLE = false ∧
          zram_get_idle_count
            ((wait_for_writeback_batch d start_blkidx batch
              true).1.table.getD (batch.getD k 0) default) = 0 ∧
          (wait_for_writeback_batch d start_blkidx batch
            true).1.bitmap.getD (start_blkidx + k) false = false) ∧
      (∀ j,
        ((wait_for_writeback_batch d start_blkidx batch
            true).1.table.getD j default).payload =
          (d.table.getD j default).payload ∧
        zram_get_obj_size
            ((wait_for_writeback_batch d start_blkidx batch
              true).1.table.getD j default) =
          zram_get_obj_size (d.table.getD j default) ∧
        zram_test_flag
            ((wait_for_writeback_batch d start_blkidx batch
              true).1.table.getD j default) ZRAM_SAME =
          zram_test_flag (d.table.getD j default) ZRAM_SAME ∧
        zram_test_flag
            ((wait_for_writeback_batch d start_blkidx batch
              true).1.table.getD j default) ZRAM_WB =
          zram_test_flag (d.table.getD j default) ZRAM_WB ∧
        zram_test_flag
            ((wait_for_writeback_batch d start_blkidx batch
              true).1.table.getD j default) ZRAM_HUGE =
          zram_test_flag (d.table.getD j default) ZRAM_HUGE) ∧
      (wait_for_writeback_batch d start_blkidx batch true).1.disksize =
        d.disksize ∧
      (wait_for_writeback_batch d start_blkidx batch true).1.bd_wb_limit =
        d.bd_wb_limit ∧
      (wait_for_writeback_batch d start_blkidx batch true).1.notify_free =
        d.notify_free := by
  have et : (wait_for_writeback_batch d start_blkidx batch true).1.table =
      (wb_batch_rollback d.table d.bitmap start_blkidx batch).1 := rfl
  have ebm : (wait_for_writeback_batch d start_blkidx batch true).1.bitmap =
      (wb_batch_rollback d.table d.bitmap start_blkidx batch).2 := rfl
  refine ⟨rfl, ?_, ?_, rfl, rfl, rfl⟩
  · intro k hk
    have hmem : batch.getD k 0 ∈ batch := getD_mem batch k 0 hk
    have hg : (wb_batch_rollback d.table d.bitmap start_blkidx
        batch).1.getD (batch.getD k 0) default =
        rollback_slot (d.table.getD (batch.getD k 0) default) := by
      rw [wb_batch_rollback_getD batch d.table d.bitmap start_blkidx _ hb,
        if_pos hmem]
    rw [et, hg, ebm, wb_batch_rollback_bitmap]
    refine ⟨rollback_slot_under_wb _, rollback_slot_idle _,
      rollback_slot_count _, ?_⟩
    rw [if_pos ⟨by omega, by omega⟩]
  · intro j
    rw [et, wb_batch_rollback_getD batch d.table d.bitmap start_blkidx _ hb]
    by_cases hj : j ∈ batch
    · rw [if_pos hj]
      exact ⟨rollback_slot_payload _, rollback_slot_size _,
        rollback_slot_keeps _ _ (by decide) (by decide) (by decide),
        rollback_slot_keeps _ _ (by decide) (by decide) (by decide),
        rollback_slot_keeps _ _ (by decide) (by decide) (by decide)⟩
    · rw [if_neg hj]
      exact ⟨rfl, rfl, rfl, rfl, rfl⟩

/-- C6 witness: one-slot batch over a device with a single marked slot
(`UNDER_WB`, `IDLE`, count 1, size 50, entry 9) and backing block 1
allocated; the failing bio rolls everything back. -/
theorem wb_batch_error_rollback_witness :
    (wait_for_writeback_batch
      ⟨4096, [⟨BIT 27 ||| BIT 29 ||| 1 <<< 61 ||| 50, 9⟩], [false, true],
        false, 0, 0, 0, 0⟩ 1 [0] true).2 = 0 ∧
      zram_test_flag
          ((wait_for_writeback_batch
            ⟨4096, [⟨BIT 27 ||| BIT 29 ||| 1 <<< 61 ||| 50, 9⟩], [false, true],
              false, 0, 0, 0, 0⟩ 1 [0] true).1.table.getD 0 default)
          ZRAM_UNDER_WB = false ∧
      zram_test_flag
          ((wait_for_writeback_batch
            ⟨4096, [⟨BIT 27 ||| BIT 29 ||| 1 <<< 61 ||| 50, 9⟩], [false, true],
              false, 0, 0, 0, 0⟩ 1 [0] true).1.table.getD 0 default)
          ZRAM_IDLE = false ∧
      zram_get_idle_count
          ((wait_for_writeback_batch
            ⟨4096, [⟨BIT 27 ||| BIT 29 ||| 1 <<< 61 ||| 50, 9⟩], [false, true],
              false, 0, 0, 0, 0⟩ 1 [0] true).1.table.getD 0 default) = 0 ∧
      (wait_for_writeback_batch
          ⟨4096, [⟨BIT 27 ||| BIT 29 ||| 1 <<< 61 ||| 50, 9⟩], [false, true],
            false, 0, 0, 0, 0⟩ 1 [0] true).1.bitmap.getD (1 + 0) false = false ∧
      ((wait_for_writeback_batch
          ⟨4096, [⟨BIT 27 ||| BIT 29 ||| 1 <<< 61 ||| 50, 9⟩], [false, true],
            false, 0, 0, 0, 0⟩ 1 [0] true).1.table.getD 0 default).payload = 9 := by
  have h := wb_batch_error_rollback
    ⟨4096, [⟨BIT 27 ||| BIT 29 ||| 1 <<< 61 ||| 50, 9⟩], [false, true],
      false, 0, 0, 0, 0⟩ 1 [0]
    (by
      intro i hi
      rw [List.mem_singleton] at hi
      subst hi
      decide)
  have hk := h.2.1 0 (by decide)
  have hj := h.2.2.1 0
  exact ⟨h.1, hk.1, hk.2.1, hk.2.2.1, hk.2.2.2, hj.1⟩

/-! ## C5: the `wb_max` budget of `writeback_store`

The selection loop of `writeback_store` (zram_drv.c:930-1041) is
modelled as a fold over the slot indices.  External outcomes enter
through three oracles: `sig` (whether `SIGUSR1` is pending at a given
iteration), `read_fail` (whether the staging decompression of a slot
fails) and `bio_err` (whether the n-th flushed batch bio fails).
-/

structure WbLoop where
  dev : ZramDev
  blk_idx : Nat
  start_blkidx : Nat
  nr_write : Nat
  batch : List Nat
  wb_pages_nr : Nat
  flush_count : Nat
  deriving Repr, DecidableEq

/-- Block allocation step (zram_drv.c:955-963). -/
def wb_body_alloc (st : WbLoop) : WbLoop :=
  if st.blk_idx = 0 then
    let r := alloc_block_bdev st.dev.bitmap
    { st with
      dev := { st.dev with bitmap := r.2 }
      blk_idx := r.1
      start_blkidx := if st.nr_write = 0 then r.1 else st.start_blkidx }
  else st

/-- Batch flush step (zram_drv.c:965-972): flush when the batch is full
or the held block is not contiguous with it. -/
def wb_body_flush (bio_err : Nat → Bool) (st : WbLoop) : WbLoop :=
  if st.nr_write ≥ MAX_WRITEBACK_SIZE ∨
      st.start_blkidx + st.nr_write ≠ st.blk_idx then
    let r := wait_for_writeback_batch st.dev st.start_blkidx st.batch
      (bio_err st.flush_count)
    { st with
      dev := r.1
      wb_pages_nr := st.wb_pages_nr + r.2
      start_blkidx := st.blk_idx
      nr_write := 0
      batch := []
      flush_count := st.flush_count + 1 }
  else st

/-- Slot phase (zram_drv.c:981-1025): eligibility test under the lock,
marking (`UNDER_WB` + `IDLE`), staging read with rollback on failure,
and recording `{page, index}` into the batch. -/
def wb_body_slot (mode wb_idle_min : Nat) (read_fail : Nat → Bool)
    (st : WbLoop) (index : Nat) : WbLoop :=
  let s := st.dev.table.getD index default
  if !wb_select mode wb_idle_min s then st
  else
    let t1 := st.dev.table.set index (wb_mark s)
    if read_fail index then
      { st with dev := { st.dev with
          table := t1.set index (rollback_slot (t1.getD index default)) } }
    else
      { st with
        dev := { st.dev with table := t1 }
        batch := st.batch ++ [index]
        nr_write := st.nr_write + 1
        blk_idx := 0 }

/-- One iteration of the `writeback_store` loop; the `Bool` is `true`
when the loop breaks (signal, exhausted budget, full backing device, or
`wb_pages_nr >= wb_max`). -/
def wb_loop_body (mode wb_max wb_idle_min : Nat)
    (sig read_fail bio_err : Nat → Bool) (st : WbLoop) (index : Nat) :
    WbLoop × Bool :=
  if sig index then (st, true)
  else if st.dev.wb_limit_enable && decide (st.dev.bd_wb_limit = 0) then
    (st, true)
  else
    let stA := wb_body_alloc st
    if stA.blk_idx = 0 then (stA, true)
    else
      let stB := wb_body_flush bio_err stA
      if stB.wb_pages_nr ≥ wb_max then (stB, true)
      else (wb_body_slot mode wb_idle_min read_fail stB index, false)

/-- The slot-index loop of `writeback_store`. -/
def wb_loop (mode wb_max wb_idle_min : Nat)
    (sig read_fail bio_err : Nat → Bool) :
    WbLoop → List Nat → WbLoop
  | st, [] => st
  | st, index :: rest =>
    match wb_loop_body mode wb_max wb_idle_min sig read_fail bio_err st index
      with
    | (st2, true) => st2
    | (st2, false) =>
      wb_loop mode wb_max wb_idle_min sig read_fail bio_err st2 rest

/-- Final flush of a pending batch (zram_drv.c:1029-1033). -/
def wb_final_flush (bio_err : Nat → Bool) (st : WbLoop) : WbLoop :=
  if st.nr_write ≠ 0 then
    let r := wait_for_writeback_batch st.dev st.start_blkidx st.batch
      (bio_err st.flush_count)
    { st with
      dev := r.1
      wb_pages_nr := st.wb_pages_nr + r.2
      nr_write := 0
      batch := []
      flush_count := st.flush_count + 1 }
  else st

/-- `writeback_store` after a successful parse (zram_drv.c:930-1041):
run the loop over every slot index, flush the remaining batch, release
an unused block. -/
def writeback_store_run (mode wb_max wb_idle_min : Nat)
    (sig read_fail bio_err : Nat → Bool) (d : ZramDev) : WbLoop :=
  let st0 : WbLoop := ⟨d, 0, 0, 0, [], 0, 0⟩
  let st1 := wb_loop mode wb_max wb_idle_min sig read_fail bio_err st0
    (List.range (d.disksize >>> PAGE_SHIFT))
  let st2 := wb_final_flush bio_err st1
  if st2.blk_idx ≠ 0 then
    { st2 with dev := { st2.dev with
        bitmap := free_block_bdev st2.dev.bitmap st2.blk_idx } }
  else st2

/-- A reconciliation pass never counts more pages than the batch has. -/
theorem wb_batch_reconcile_le (batch : List Nat) :
    ∀ (t : List ZramSlot) (bm : List Bool) (en : Bool) (lim blk : Nat),
      (wb_batch_reconcile t bm en lim blk batch).2.2.2 ≤ batch.length := by
  induction batch with
  | nil => intro t bm en lim blk; exact Nat.zero_le _
  | cons idx rest ih =>
    intro t bm en lim blk
    show (wb_batch_reconcile t bm en lim blk (idx :: rest)).2.2.2 ≤
      rest.length + 1
    rw [wb_batch_reconcile]
    split
    · exact le_trans (ih _ _ _ _ _) (Nat.le_succ _)
    · simp only []
      exact Nat.succ_le_succ (ih _ _ _ _ _)

theorem wait_for_writeback_batch_le (d : ZramDev) (start : Nat)
    (batch : List Nat) (e : Bool) :
    (wait_for_writeback_batch d start batch e).2 ≤ batch.length := by
  unfold wait_for_writeback_batch
  split
  · exact Nat.zero_le _
  · exact wb_batch_reconcile_le batch _ _ _ _ _

/-- Loop invariant: the batch matches `nr_write`, the batch never
exceeds the staging capacity, a nonempty batch was built while the cap
had not been reached, and the running total is below
`wb_max + MAX_WRITEBACK_SIZE`. -/
def WbInv (wb_max : Nat) (st : WbLoop) : Prop :=
  st.nr_write = st.batch.length ∧ st.nr_write ≤ MAX_WRITEBACK_SIZE ∧
    (0 < st.nr_write → st.wb_pages_nr < wb_max) ∧
    st.wb_pages_nr < wb_max + MAX_WRITEBACK_SIZE

theorem wb_body_alloc_inv (wb_max : Nat) (st : WbLoop)
    (h : WbInv wb_max st) : WbInv wb_max (wb_body_alloc st) := by
  unfold wb_body_alloc
  split
  · exact h
  · exact h

theorem wb_body_flush_inv (wb_max : Nat) (bio_err : Nat → Bool)
    (st : WbLoop) (h : WbInv wb_max st) :
    WbInv wb_max (wb_body_flush bio_err st) := by
  obtain ⟨h1, h2, h3, h4⟩ := h
  unfold wb_body_flush
  split
  · have hk := wait_for_writeback_batch_le st.dev st.start_blkidx st.batch
      (bio_err st.flush_count)
    refine ⟨rfl, Nat.zero_le _, fun hc => absurd hc (Nat.lt_irrefl 0), ?_⟩
    show st.wb_pages_nr +
      (wait_for_writeback_batch st.dev st.start_blkidx st.batch
        (bio_err st.flush_count)).2 < wb_max + MAX_WRITEBACK_SIZE
    by_cases hn : 0 < st.nr_write
    · have := h3 hn
      omega
    · have hz : st.batch.length = 0 := by omega
      omega
  · exact ⟨h1, h2, h3, h4⟩

theorem wb_body_flush_lt (bio_err : Nat → Bool) (st : WbLoop) :
    (wb_body_flush bio_err st).nr_write < MAX_WRITEBACK_SIZE := by
  unfold wb_body_flush
  split
  · show (0 : Nat) < MAX_WRITEBACK_SIZE
    decide
  · rename_i hcond
    rw [not_or] at hcond
    have := hcond.1
    omega

theorem wb_body_flush_wb (bio_err : Nat → Bool) (st : WbLoop) :
    st.wb_pages_nr ≤ (wb_body_flush bio_err st).wb_pages_nr := by
  unfold wb_body_flush
  split
  · exact Nat.le_add_right _ _
  · exact le_refl _

theorem wb_body_slot_inv (wb_max mode wb_idle_min : Nat)
    (read_fail : Nat → Bool) (st : WbLoop) (index : Nat)
    (h : WbInv wb_max st) (hlt : st.nr_write < MAX_WRITEBACK_SIZE)
    (hcap : st.wb_pages_nr < wb_max) :
    WbInv wb_max (wb_body_slot mode wb_idle_min read_fail st index) := by
  obtain ⟨h1, h2, h3, h4⟩ := h
  simp only [wb_body_slot]
  split
  · exact ⟨h1, h2, h3, h4⟩
  · split
    · exact ⟨h1, h2, h3, h4⟩
    · refine ⟨?_, by show st.nr_write + 1 ≤ MAX_WRITEBACK_SIZE; omega,
        fun _ => hcap, h4⟩
      show st.nr_write + 1 = (st.batch ++ [index]).length
      rw [List.length_append, List.length_singleton, h1]

theorem wb_loop_body_inv (mode wb_max wb_idle_min : Nat)
    (sig read_fail bio_err : Nat → Bool) (st : WbLoop) (index : Nat)
    (h : WbInv wb_max st) :
    WbInv wb_max
      (wb_loop_body mode wb_max wb_idle_min sig read_fail bio_err st
        index).1 := by
  simp only [wb_loop_body]
  split
  · exact h
  · split
    · exact h
    · have hA := wb_body_alloc_inv wb_max st h
      split
      · exact hA
      · have hB := wb_body_flush_inv wb_max bio_err _ hA
        split
        · exact hB
        · rename_i hcap
          exact wb_body_slot_inv wb_max mode wb_idle_min read_fail _ index hB
            (wb_body_flush_lt bio_err _) (by omega)

theorem wb_loop_inv (mode wb_max wb_idle_min : Nat)
    (sig read_fail bio_err : Nat → Bool) (indices : List Nat) :
    ∀ st : WbLoop, WbInv wb_max st →
      WbInv wb_max
        (wb_loop mode wb_max wb_idle_min sig read_fail bio_err st indices) := by
  induction indices with
  | nil => intro st h; exact h
  | cons index rest ih =>
    intro st h
    show WbInv wb_max
      (match wb_loop_body mode wb_max wb_idle_min sig read_fail bio_err st
        index with
      | (st2, true) => st2
      | (st2, false) =>
        wb_loop mode wb_max wb_idle_min sig read_fail bio_err st2 rest)
    have hb := wb_loop_body_inv mode wb_max wb_idle_min sig read_fail bio_err
      st index h
    cases he : wb_loop_body mode wb_max wb_idle_min sig read_fail bio_err st
      index with
    | mk st2 br =>
      rw [he] at hb
      cases br
      · exact ih st2 hb
      · exact hb

theorem wb_final_flush_inv (wb_max : Nat) (bio_err : Nat → Bool)
    (st : WbLoop) (h : WbInv wb_max st) :
    (wb_final_flush bio_err st).wb_pages_nr < wb_max + MAX_WRITEBACK_SIZE := by
  obtain ⟨h1, h2, h3, h4⟩ := h
  unfold wb_final_flush
  split
  · rename_i hn
    have hk := wait_for_writeback_batch_le st.dev st.start_blkidx st.batch
      (bio_err st.flush_count)
    show st.wb_pages_nr +
      (wait_for_writeback_batch st.dev st.start_blkidx st.batch
        (bio_err st.flush_count)).2 < wb_max + MAX_WRITEBACK_SIZE
    have := h3 (by omega)
    omega
  · exact h4

/-- C5 (amended): over a whole `writeback_store` invocation the number
of pages actually written, `wb_pages_nr`, can overshoot `wb_max` by
less than one staging batch but never reaches
`wb_max + MAX_WRITEBACK_SIZE`: the cap is only consulted between
batches, after the pending batch has already been flushed. -/
theorem writeback_store_cap (mode wb_max wb_idle_min : Nat)
    (sig read_fail bio_err : Nat → Bool) (d : ZramDev) :
    (writeback_store_run mode wb_max wb_idle_min sig read_fail bio_err
        d).wb_pages_nr < wb_max + MAX_WRITEBACK_SIZE := by
  simp only [writeback_store_run]
  have h0 : WbInv wb_max ⟨d, 0, 0, 0, [], 0, 0⟩ := by
    refine ⟨rfl, Nat.zero_le _, fun hc => absurd hc (Nat.lt_irrefl 0), ?_⟩
    show 0 < wb_max + MAX_WRITEBACK_SIZE
    have : MAX_WRITEBACK_SIZE = 32 := rfl
    omega
  have h1 := wb_loop_inv mode wb_max wb_idle_min sig read_fail bio_err
    (List.range (d.disksize >>> PAGE_SHIFT)) _ h0
  have h2 := wb_final_flush_inv wb_max bio_err _ h1
  split
  · exact h2
  · exact h2

/-- C5 counterexample: an `"idle 1"` invocation (`wb_max = 1`) on a
device with two eligible idle low-compression slots writes 2 pages: the
second slot is added to the still-unflushed batch before the cap is
consulted, and the final flush writes the whole batch. -/
theorem writeback_store_exceeds_wb_max :
    (writeback_store_run IDLE_WRITEBACK 1 1 (fun _ => false) (fun _ => false)
          (fun _ => false)
          ⟨8192,
            [⟨1 <<< 61 ||| BIT 29 ||| BIT 30 ||| 100, 7⟩,
              ⟨1 <<< 61 ||| BIT 29 ||| BIT 30 ||| 100, 7⟩],
            [false, false, false], false, 0, 0, 0, 0⟩).wb_pages_nr = 2 ∧
      ¬ ((writeback_store_run IDLE_WRITEBACK 1 1 (fun _ => false)
            (fun _ => false) (fun _ => false)
            ⟨8192,
              [⟨1 <<< 61 ||| BIT 29 ||| BIT 30 ||| 100, 7⟩,
                ⟨1 <<< 61 ||| BIT 29 ||| BIT 30 ||| 100, 7⟩],
              [false, false, false], false, 0, 0, 0, 0⟩).wb_pages_nr ≤ 1) := by
  decide

/-! ## C4: invariant I5 (`IDLE` vs `UNDER_WB`) -/

/-- Per-slot effect of `idle_store` (zram_drv.c:352-363): eligible
slots (sized, `COMPRESS_LOW`, not `UNDER_WB`, not `WB`) get their idle
count bumped and `IDLE` set. -/
def idle_store_slot (s : ZramSlot) : ZramSlot :=
  if zram_get_obj_size s != 0 && zram_test_flag s ZRAM_COMPRESS_LOW &&
      !zram_test_flag s ZRAM_UNDER_WB && !zram_test_flag s ZRAM_WB then
    let s := zram_inc_idle_count s
    if !zram_test_flag s ZRAM_IDLE then zram_set_flag s ZRAM_IDLE else s
  else s

/-- Per-slot effect of `new_store` (zram_drv.c:389-394). -/
def new_store_slot (s : ZramSlot) : ZramSlot :=
  zram_clear_idle_count (zram_clear_flag s ZRAM_IDLE)

/-- One atomic slot-table transition of the device: the operations the
claims quantify over (`idle_store`, `new_store`, reads, writes,
discards and the writeback steps), each acting under the slot lock as
in the source. -/
inductive ZramStep : ZramDev → ZramDev → Prop where
  | idle_all (d : ZramDev) :
      ZramStep d { d with table := d.table.map idle_store_slot }
  | new_all (d : ZramDev) :
      ZramStep d { d with table := d.table.map new_store_slot }
  | write (d : ZramDev) (i : Nat) (B : Page) (comp_len entry : Nat)
      (hi : i < d.table.length) (hcl : comp_len ≤ PAGE_SIZE)
      (he : entry ≠ 0) :
      ZramStep d { d with table := (d.table.set i
        (zram_bvec_write_slot B comp_len entry (d.table.getD i default))) }
  | read_access (d : ZramDev) (i : Nat) (hi : i < d.table.length) :
      ZramStep d { d with table := (d.table.set i
        (zram_accessed (d.table.getD i default))) }
  | discard (d : ZramDev) (i : Nat) (hi : i < d.table.length) :
      ZramStep d { d with table := (d.table.set i
        (zram_free_page (d.table.getD i default))) }
  | wb_mark_slot (d : ZramDev) (i mode wb_idle_min : Nat)
      (hi : i < d.table.length)
      (hmode : mode = HUGE_WRITEBACK ∨ mode = IDLE_WRITEBACK)
      (hsel : wb_select mode wb_idle_min (d.table.getD i default) = true) :
      ZramStep d { d with table := (d.table.set i
        (wb_mark (d.table.getD i default))) }
  | wb_read_fail (d : ZramDev) (i : Nat) (hi : i < d.table.length) :
      ZramStep d { d with table := (d.table.set i
        (rollback_slot (d.table.getD i default))) }
  | wb_flush (d : ZramDev) (start : Nat) (batch : List Nat) (err : Bool)
      (hb : ∀ j ∈ batch, j < d.table.length) :
      ZramStep d (wait_for_writeback_batch d start batch err).1

/-- Reachability under any interleaving of the modelled operations. -/
def ZramReachable (d d2 : ZramDev) : Prop :=
  Relation.ReflTransGen ZramStep d d2

/-- C4 (amended): `idle_store` never sets `IDLE` on a slot carrying
`UNDER_WB` — its per-slot update leaves any `UNDER_WB` slot entirely
unchanged, closing the repopulation race.  (The unrestricted invariant
I5 is false: the writeback path itself sets `IDLE` together with
`UNDER_WB` as a race-closure token, see the counterexample.) -/
theorem idle_store_keeps_under_wb_slot (d : ZramDev) (i : Nat)
    (h : zram_test_flag (d.table.getD i default) ZRAM_UNDER_WB = true) :
    ({ d with table := d.table.map idle_store_slot } : ZramDev).table.getD i
        default = d.table.getD i default := by
  show (d.table.map idle_store_slot).getD i default = d.table.getD i default
  have hslot : ∀ s : ZramSlot, zram_test_flag s ZRAM_UNDER_WB = true →
      idle_store_slot s = s := by
    intro s hs
    unfold idle_store_slot
    rw [hs]
    simp
  by_cases hi : i < d.table.length
  · rw [List.getD_eq_getElem?_getD, List.getElem?_map,
      List.getElem?_eq_getElem hi]
    show idle_store_slot d.table[i] = d.table.getD i default
    have he : d.table[i] = d.table.getD i default := by
      rw [List.getD_eq_getElem?_getD, List.getElem?_eq_getElem hi]
      rfl
    rw [he, hslot _ h]
  · rw [getD_oob _ _ _ (by rw [List.length_map]; omega),
      getD_oob _ _ _ (by omega)]

/-- C4 amended-claim witness: an `UNDER_WB` slot survives `idle_store`
untouched. -/
theorem idle_store_keeps_under_wb_slot_witness :
    (({ (⟨8192, [⟨BIT 27 ||| BIT 30 ||| 100, 7⟩], [], false, 0, 0, 0, 0⟩ :
          ZramDev) with
        table := [⟨BIT 27 ||| BIT 30 ||| 100, 7⟩].map idle_store_slot } :
          ZramDev)).table.getD 0 default =
      ((⟨8192, [⟨BIT 27 ||| BIT 30 ||| 100, 7⟩], [], false, 0, 0, 0, 0⟩ :
        ZramDev)).table.getD 0 default :=
  idle_store_keeps_under_wb_slot
    ⟨8192, [⟨BIT 27 ||| BIT 30 ||| 100, 7⟩], [], false, 0, 0, 0, 0⟩ 0
    (by decide)

set_option maxRecDepth 8000 in
/-- C4 counterexample: from a one-slot device, a write whose compressed
length clamps to `PAGE_SIZE` (huge, low-ratio) followed by the
huge-mode writeback marking step (zram_drv.c:1001-1010) reaches a state
whose slot carries `ZRAM_IDLE` and `ZRAM_UNDER_WB` simultaneously —
the writeback path sets both on purpose, refuting invariant I5 as a
property of all reachable states. -/
theorem idle_and_under_wb_reachable :
    ZramReachable ⟨8192, [⟨0, 0⟩], [false, false], false, 0, 0, 0, 0⟩
        ⟨8192, [⟨BIT 30 ||| BIT 29 ||| BIT 28 ||| BIT 27 ||| 4096, 5⟩],
          [false, false], false, 0, 0, 0, 0⟩ ∧
      zram_test_flag ⟨BIT 30 ||| BIT 29 ||| BIT 28 ||| BIT 27 ||| 4096, 5⟩
        ZRAM_IDLE = true ∧
      zram_test_flag ⟨BIT 30 ||| BIT 29 ||| BIT 28 ||| BIT 27 ||| 4096, 5⟩
        ZRAM_UNDER_WB = true := by
  refine ⟨?_, by decide, by decide⟩
  refine Relation.ReflTransGen.head
    (b := (⟨8192, [⟨BIT 30 ||| BIT 28 ||| 4096, 5⟩], [false, false],
      false, 0, 0, 0, 0⟩ : ZramDev)) ?_ ?_
  · exact ZramStep.write _ 0 (fun i => i) 4096 5 (by decide) (by decide)
      (by decide)
  · refine Relation.ReflTransGen.single ?_
    exact ZramStep.wb_mark_slot _ 0 HUGE_WRITEBACK 1 (by decide)
      (Or.inl rfl) (by decide)
